import Mathlib

set_option linter.unusedVariables false

/-!
Shallow embedding of the SynapseX on-chain core (contracts/DataMarketplace.sol,
contracts/CrossChainBridge.sol, which also contains the DataCoin contract).

Modelling conventions:
* Addresses are `Nat` (0 is the zero address).  `uint256` values are `Nat`;
  Solidity 0.8 checked arithmetic is reflected by explicit overflow /
  underflow guards at the multiplications and subtractions the code performs.
* Solidity mappings are total functions returning the zero value of the
  value type, exactly as on the EVM.
* `bytes32` identifiers produced by `keccak256(abi.encodePacked(...))` are
  modelled by the inductive `Bytes32`, whose constructors carry the packed
  pre-image; this is the standard idealisation of keccak as injective on the
  fixed-width tuples the contracts hash (collisions between distinct
  pre-images are cryptographically negligible; identical pre-images collide
  in the model exactly as in the code).
* Every external entry point is a function from an `Env` (msg.sender,
  block.timestamp, block.number) and the current `World` to
  `Except Err (result × World)`.  EVM transaction semantics (revert rolls
  back every write) is captured by `applyOp`, which keeps the pre-state on
  any error; there is no try/catch in the contracts, so errors of nested
  calls propagate to the outermost frame.
* The ERC-721 transfer/approval surface of DataCoin is modelled only in the
  owner-initiated case (operator approvals omitted); those operations touch
  only the token-owner mapping and no datasets, purchases, intents, proofs
  or balances.
-/

namespace SynapseX

/-- 2^256, the wrap-around bound of `uint256`; the model raises `Err.overflow`
where Solidity 0.8 checked arithmetic would revert. -/
def two256 : Nat := 2 ^ 256

/-- Transaction context of one external call. -/
structure Env where
  sender : Nat
  ts : Nat
  bn : Nat
deriving DecidableEq

/-- Model of `bytes32` values used as mapping keys.  `pid` carries the
pre-image hashed by `DataMarketplace.executePurchase` (tokenId, msg.sender,
amount, block.timestamp, block.number); `iid` the pre-image hashed by
`CrossChainBridge.createIntent` (msg.sender, tokenId, amount, sourceChainId,
destinationChainId, block.timestamp, block.number); `raw` any other value. -/
inductive Bytes32 where
  | raw (n : Nat)
  | pid (tokenId buyer amount ts bn : Nat)
  | iid (buyer tokenId amount sourceChainId destinationChainId ts bn : Nat)
deriving DecidableEq

/-- Revert reasons of the modelled contracts (custom errors and require
messages collapsed to one kind per distinct reason; the three textual
variants of "dataset is not active" share `datasetNotActive`). -/
inductive Err where
  | notOwner
  | notCreator
  | pausedErr
  | notPausedErr
  | zeroAddress
  | overflow
  | underflow
  | tokenDoesNotExist
  | emptyCID
  | emptyName
  | invalidPrice
  | duplicateCID
  | datasetNotActive
  | insufficientPayment
  | purchaseNotFound
  | feeTooHigh
  | insufficientBalance
  | unsupportedChain
  | intentNotFound
  | intentAlreadyExecuted
  | intentNotExecuted
  | invalidProof
  | invalidAmount
  | erc20InsufficientBalance
  | erc20InsufficientAllowance
deriving DecidableEq

/-- `DataCoin.DatasetInfo` (CrossChainBridge.sol, DataCoin section). -/
structure DatasetInfo where
  cid : String
  name : String
  description : String
  price : Nat
  creator : Nat
  isActive : Bool
  createdAt : Nat
  accessPolicy : String
  totalSupply : Nat
  soldSupply : Nat
deriving DecidableEq

/-- Zero value of `DatasetInfo`, the default of the `datasets` mapping. -/
def DatasetInfo.zero : DatasetInfo :=
  { cid := "", name := "", description := "", price := 0, creator := 0,
    isActive := false, createdAt := 0, accessPolicy := "", totalSupply := 0,
    soldSupply := 0 }

/-- Storage of the DataCoin contract: `_tokenIds` counter, `datasets`,
`cidToTokenId`, the ERC-721 owner-of mapping (0 = token does not exist) and
the Ownable owner. -/
structure DataCoinState where
  tokenIds : Nat
  datasets : Nat → DatasetInfo
  cidToTokenId : String → Nat
  owners : Nat → Nat
  owner : Nat

/-- `DataCoin.getDatasetInfo`: reverts when the token does not exist,
otherwise returns the stored record. -/
def DataCoin.getDatasetInfo (s : DataCoinState) (tokenId : Nat) :
    Except Err DatasetInfo :=
  if s.owners tokenId = 0 then .error .tokenDoesNotExist
  else .ok (s.datasets tokenId)

/-- `DataCoin.cidExists`. -/
def DataCoin.cidExists (s : DataCoinState) (cid : String) : Bool :=
  s.cidToTokenId cid != 0

/-- `DataCoin.totalSupply` (the `_tokenIds` counter). -/
def DataCoin.totalSupply (s : DataCoinState) : Nat :=
  s.tokenIds

/-- `DataCoin.mintDataset`: onlyOwner; requires non-empty cid and name,
positive price, fresh cid; assigns id `_tokenIds + 1`, stores the record,
registers the reverse cid mapping and mints the NFT (`_safeMint` reverts on
the zero receiver). -/
def DataCoin.mintDataset (env : Env) (toA : Nat) (cid name description : String)
    (price : Nat) (accessPolicy : String) (maxSupply : Nat)
    (s : DataCoinState) : Except Err (Nat × DataCoinState) :=
  if env.sender ≠ s.owner then .error .notOwner
  else if cid = "" then .error .emptyCID
  else if name = "" then .error .emptyName
  else if price = 0 then .error .invalidPrice
  else if s.cidToTokenId cid ≠ 0 then .error .duplicateCID
  else if toA = 0 then .error .zeroAddress
  else
    let newTokenId := s.tokenIds + 1
    .ok (newTokenId,
      { s with
        tokenIds := newTokenId
        datasets := fun t =>
          if t = newTokenId then
            { cid := cid, name := name, description := description,
              price := price, creator := toA, isActive := true,
              createdAt := env.ts, accessPolicy := accessPolicy,
              totalSupply := maxSupply, soldSupply := 0 }
          else s.datasets t
        cidToTokenId := fun c => if c = cid then newTokenId else s.cidToTokenId c
        owners := fun t => if t = newTokenId then toA else s.owners t })

/-- `DataCoin.updateDataset`: token must exist, caller must be the creator,
new price positive; updates price and access policy. -/
def DataCoin.updateDataset (env : Env) (tokenId newPrice : Nat)
    (newAccessPolicy : String) (s : DataCoinState) : Except Err DataCoinState :=
  if s.owners tokenId = 0 then .error .tokenDoesNotExist
  else if (s.datasets tokenId).creator ≠ env.sender then .error .notCreator
  else if newPrice = 0 then .error .invalidPrice
  else
    let d := { (s.datasets tokenId) with price := newPrice, accessPolicy := newAccessPolicy }
    .ok { s with datasets := fun t => if t = tokenId then d else s.datasets t }

/-- `DataCoin.grantAccess`: onlyOwner; token must exist and be active;
unconditionally adds `amount` to `soldSupply` (the code performs no
`totalSupply` cap check). -/
def DataCoin.grantAccess (env : Env) (tokenId buyer amount : Nat)
    (s : DataCoinState) : Except Err DataCoinState :=
  if env.sender ≠ s.owner then .error .notOwner
  else if s.owners tokenId = 0 then .error .tokenDoesNotExist
  else if (s.datasets tokenId).isActive = false then .error .datasetNotActive
  else
    let d := { (s.datasets tokenId) with soldSupply := (s.datasets tokenId).soldSupply + amount }
    .ok { s with datasets := fun t => if t = tokenId then d else s.datasets t }

/-- `DataCoin.deactivateDataset`: token must exist, caller must be the
creator; sets `isActive := false`. -/
def DataCoin.deactivateDataset (env : Env) (tokenId : Nat)
    (s : DataCoinState) : Except Err DataCoinState :=
  if s.owners tokenId = 0 then .error .tokenDoesNotExist
  else if (s.datasets tokenId).creator ≠ env.sender then .error .notCreator
  else
    let d := { (s.datasets tokenId) with isActive := false }
    .ok { s with datasets := fun t => if t = tokenId then d else s.datasets t }

/-- ERC-721 `transferFrom` on DataCoin, owner-initiated case (operator
approvals not modelled); moves token ownership, never to the zero address. -/
def DataCoin.transferNFT (env : Env) (fromA toA tokenId : Nat)
    (s : DataCoinState) : Except Err DataCoinState :=
  if toA = 0 then .error .zeroAddress
  else if s.owners tokenId = 0 then .error .tokenDoesNotExist
  else if s.owners tokenId ≠ fromA then .error .notOwner
  else if env.sender ≠ fromA then .error .notOwner
  else .ok { s with owners := fun t => if t = tokenId then toA else s.owners t }

/-- Ownable `transferOwnership` on DataCoin. -/
def DataCoin.transferOwnership (env : Env) (newOwner : Nat)
    (s : DataCoinState) : Except Err DataCoinState :=
  if env.sender ≠ s.owner then .error .notOwner
  else if newOwner = 0 then .error .zeroAddress
  else .ok { s with owner := newOwner }

/-- Modelled from the spec: the external currency-holder collaborator (§6);
the MockUSDC contract source is not under src/.  Balances and allowances as
flat mappings. -/
structure ERC20State where
  balances : Nat → Nat
  allowance : Nat → Nat → Nat

/-- Modelled from the spec: currency holder `transfer(toA, amount)`, failing
when the sender's balance is insufficient. -/
def ERC20.transfer (fromA toA amount : Nat) (s : ERC20State) :
    Except Err ERC20State :=
  if s.balances fromA < amount then .error .erc20InsufficientBalance
  else
    let b1 := fun a => if a = fromA then s.balances fromA - amount else s.balances a
    .ok { s with balances := fun a => if a = toA then b1 toA + amount else b1 a }

/-- Modelled from the spec: currency holder `transferFrom(from, to, amount)`
invoked by `spender`, failing when allowance or balance is insufficient and
consuming the allowance. -/
def ERC20.transferFrom (spender fromA toA amount : Nat) (s : ERC20State) :
    Except Err ERC20State :=
  if s.allowance fromA spender < amount then .error .erc20InsufficientAllowance
  else
    match ERC20.transfer fromA toA amount s with
    | .error e => .error e
    | .ok s' =>
      .ok { s' with allowance := fun o sp =>
        if o = fromA then
          if sp = spender then s.allowance fromA spender - amount
          else s'.allowance o sp
        else s'.allowance o sp }

/-- Modelled from the spec: standard allowance approval by the caller. -/
def ERC20.approve (env : Env) (spender amount : Nat) (s : ERC20State) :
    Except Err ERC20State :=
  .ok { s with allowance := fun o sp =>
    if o = env.sender then
      if sp = spender then amount else s.allowance o sp
    else s.allowance o sp }

/-- `DataMarketplace.PurchaseRecord`. -/
structure PurchaseRecord where
  tokenId : Nat
  buyer : Nat
  amount : Nat
  price : Nat
  timestamp : Nat
  isActive : Bool
  accessToken : String
deriving DecidableEq

/-- Zero value of `PurchaseRecord`, the default of the `purchases` mapping. -/
def PurchaseRecord.zero : PurchaseRecord :=
  { tokenId := 0, buyer := 0, amount := 0, price := 0, timestamp := 0,
    isActive := false, accessToken := "" }

/-- Storage of the DataMarketplace contract. -/
structure MarketplaceState where
  platformFeeBps : Nat
  purchases : Bytes32 → PurchaseRecord
  buyerPurchases : Nat → List Bytes32
  tokenSales : Nat → Nat
  paused : Bool
  owner : Nat

/-- `CrossChainBridge.CrossChainIntent`. -/
structure CrossChainIntent where
  intentId : Bytes32
  buyer : Nat
  tokenId : Nat
  amount : Nat
  sourceChainId : Nat
  destinationChainId : Nat
  usdcAmount : Nat
  isExecuted : Bool
  isSettled : Bool
  createdAt : Nat
  executedAt : Nat
  accessToken : String
deriving DecidableEq

/-- Zero value of `CrossChainIntent`, the default of the `intents` mapping
(a zero `buyer` marks the intent as absent, as in the code). -/
def CrossChainIntent.zero : CrossChainIntent :=
  { intentId := .raw 0, buyer := 0, tokenId := 0, amount := 0,
    sourceChainId := 0, destinationChainId := 0, usdcAmount := 0,
    isExecuted := false, isSettled := false, createdAt := 0, executedAt := 0,
    accessToken := "" }

/-- Storage of the CrossChainBridge contract. -/
structure BridgeState where
  supportedChains : Nat → Bool
  intents : Bytes32 → CrossChainIntent
  buyerIntents : Nat → List Bytes32
  verifiedProofs : Bytes32 → Bool
  paused : Bool
  owner : Nat

/-- Combined on-chain state: the three contracts' storage, the currency
holder, and the (immutable) addresses of the marketplace and bridge
contracts, which act as callers of nested calls. -/
structure World where
  dc : DataCoinState
  mp : MarketplaceState
  br : BridgeState
  usdc : ERC20State
  marketAddr : Nat
  bridgeAddr : Nat

/-- Data carried by the `PurchaseExecuted` event of a successful
`executePurchase` (purchase id, total cost, fee split). -/
structure PurchaseOut where
  purchaseId : Bytes32
  totalCost : Nat
  platformFee : Nat
  creatorRevenue : Nat
deriving DecidableEq

/-- `DataMarketplace.executePurchase` (lines 96-166): whenNotPaused; fetch
dataset (reverts for a nonexistent token); revert `DatasetNotActive` when
inactive; `totalCost = price * amount`, revert `InsufficientPayment` when
zero; revert `InsufficientPayment` when the buyer's USDC balance is below
`totalCost`; split `platformFee = totalCost * platformFeeBps / 10000`,
`creatorRevenue = totalCost - platformFee`; pull `totalCost` from the buyer,
forward `creatorRevenue` to the creator; record the purchase under
`keccak256(tokenId, msg.sender, amount, block.timestamp, block.number)`;
push to the buyer's index; add to `tokenSales`; call
`dataCoin.grantAccess` (msg.sender = the marketplace contract). -/
def Marketplace.executePurchase (env : Env) (tokenId amount : Nat)
    (accessToken : String) (w : World) : Except Err (PurchaseOut × World) :=
  if w.mp.paused then .error .pausedErr
  else
    match DataCoin.getDatasetInfo w.dc tokenId with
    | .error e => .error e
    | .ok dataset =>
      if dataset.isActive = false then .error .datasetNotActive
      else if two256 ≤ dataset.price * amount then .error .overflow
      else
        let totalCost := dataset.price * amount
        if totalCost = 0 then .error .insufficientPayment
        else if w.usdc.balances env.sender < totalCost then .error .insufficientPayment
        else if two256 ≤ totalCost * w.mp.platformFeeBps then .error .overflow
        else
          let platformFee := totalCost * w.mp.platformFeeBps / 10000
          if totalCost < platformFee then .error .underflow
          else
            let creatorRevenue := totalCost - platformFee
            match ERC20.transferFrom w.marketAddr env.sender w.marketAddr totalCost w.usdc with
            | .error e => .error e
            | .ok u1 =>
              match ERC20.transfer w.marketAddr dataset.creator creatorRevenue u1 with
              | .error e => .error e
              | .ok u2 =>
                let purchaseId := Bytes32.pid tokenId env.sender amount env.ts env.bn
                let pRec : PurchaseRecord :=
                  { tokenId := tokenId, buyer := env.sender, amount := amount,
                    price := dataset.price, timestamp := env.ts,
                    isActive := true, accessToken := accessToken }
                let mp1 := { w.mp with
                  purchases := fun k => if k = purchaseId then pRec else w.mp.purchases k
                  buyerPurchases := fun a =>
                    if a = env.sender then w.mp.buyerPurchases env.sender ++ [purchaseId]
                    else w.mp.buyerPurchases a
                  tokenSales := fun t =>
                    if t = tokenId then w.mp.tokenSales tokenId + amount
                    else w.mp.tokenSales t }
                match DataCoin.grantAccess ⟨w.marketAddr, env.ts, env.bn⟩ tokenId env.sender amount w.dc with
                | .error e => .error e
                | .ok dc1 =>
                  .ok ({ purchaseId := purchaseId, totalCost := totalCost,
                         platformFee := platformFee, creatorRevenue := creatorRevenue },
                       { w with dc := dc1, mp := mp1, usdc := u2 })

/-- `DataMarketplace.verifyAccessToken` (lines 174-192): reverts
`PurchaseNotFound` when the record is absent/inactive; returns `false` on a
token mismatch (keccak string comparison = string equality) or when
`block.timestamp > purchase.timestamp + 86400`; otherwise `true`. -/
def Marketplace.verifyAccessToken (env : Env) (purchaseId : Bytes32)
    (accessToken : String) (w : World) : Except Err Bool :=
  let purchase := w.mp.purchases purchaseId
  if purchase.isActive = false then .error .purchaseNotFound
  else if purchase.accessToken ≠ accessToken then .ok false
  else if purchase.timestamp + 86400 < env.ts then .ok false
  else .ok true

/-- `DataMarketplace.updatePlatformFee`: onlyOwner, capped at
`MAX_PLATFORM_FEE_BPS = 1000`. -/
def Marketplace.updatePlatformFee (env : Env) (newFeeBps : Nat) (w : World) :
    Except Err World :=
  if env.sender ≠ w.mp.owner then .error .notOwner
  else if 1000 < newFeeBps then .error .feeTooHigh
  else .ok { w with mp := { w.mp with platformFeeBps := newFeeBps } }

/-- `DataMarketplace.withdrawFees`: onlyOwner; nonzero recipient; amount
bounded by the marketplace's USDC balance. -/
def Marketplace.withdrawFees (env : Env) (toA amount : Nat) (w : World) :
    Except Err World :=
  if env.sender ≠ w.mp.owner then .error .notOwner
  else if toA = 0 then .error .zeroAddress
  else if w.usdc.balances w.marketAddr < amount then .error .insufficientBalance
  else
    match ERC20.transfer w.marketAddr toA amount w.usdc with
    | .error e => .error e
    | .ok u => .ok { w with usdc := u }

/-- `DataMarketplace.pause` (OZ Pausable `_pause` reverts when already
paused). -/
def Marketplace.pause (env : Env) (w : World) : Except Err World :=
  if env.sender ≠ w.mp.owner then .error .notOwner
  else if w.mp.paused then .error .pausedErr
  else .ok { w with mp := { w.mp with paused := true } }

/-- `DataMarketplace.unpause`. -/
def Marketplace.unpause (env : Env) (w : World) : Except Err World :=
  if env.sender ≠ w.mp.owner then .error .notOwner
  else if w.mp.paused = false then .error .notPausedErr
  else .ok { w with mp := { w.mp with paused := false } }

/-- `DataMarketplace.emergencyRecover`, modelled for the USDC token only
(arbitrary foreign tokens are out of scope). -/
def Marketplace.emergencyRecover (env : Env) (toA amount : Nat) (w : World) :
    Except Err World :=
  if env.sender ≠ w.mp.owner then .error .notOwner
  else if toA = 0 then .error .zeroAddress
  else
    match ERC20.transfer w.marketAddr toA amount w.usdc with
    | .error e => .error e
    | .ok u => .ok { w with usdc := u }

/-- Ownable `transferOwnership` on the marketplace. -/
def Marketplace.transferOwnership (env : Env) (newOwner : Nat) (w : World) :
    Except Err World :=
  if env.sender ≠ w.mp.owner then .error .notOwner
  else if newOwner = 0 then .error .zeroAddress
  else .ok { w with mp := { w.mp with owner := newOwner } }

/-- `CrossChainBridge.createIntent` (lines 115-175): whenNotPaused; both
chains must be supported; `amount > 0`; dataset fetched through the
marketplace's DataCoin must exist and be active; `usdcAmount = price *
amount` must be positive; stores the intent (executed = settled = false)
under `keccak256(msg.sender, tokenId, amount, sourceChainId,
destinationChainId, block.timestamp, block.number)` and pushes it to the
buyer's index. -/
def Bridge.createIntent (env : Env) (tokenId amount sourceChainId destinationChainId : Nat)
    (w : World) : Except Err (Bytes32 × World) :=
  if w.br.paused then .error .pausedErr
  else if w.br.supportedChains sourceChainId = false then .error .unsupportedChain
  else if w.br.supportedChains destinationChainId = false then .error .unsupportedChain
  else if amount = 0 then .error .invalidAmount
  else
    match DataCoin.getDatasetInfo w.dc tokenId with
    | .error e => .error e
    | .ok dataset =>
      if dataset.isActive = false then .error .datasetNotActive
      else if two256 ≤ dataset.price * amount then .error .overflow
      else
        let usdcAmount := dataset.price * amount
        if usdcAmount = 0 then .error .invalidAmount
        else
          let intentId := Bytes32.iid env.sender tokenId amount sourceChainId
            destinationChainId env.ts env.bn
          let intent : CrossChainIntent :=
            { intentId := intentId, buyer := env.sender, tokenId := tokenId,
              amount := amount, sourceChainId := sourceChainId,
              destinationChainId := destinationChainId, usdcAmount := usdcAmount,
              isExecuted := false, isSettled := false, createdAt := env.ts,
              executedAt := 0, accessToken := "" }
          .ok (intentId, { w with br := { w.br with
            intents := fun k => if k = intentId then intent else w.br.intents k
            buyerIntents := fun a =>
              if a = env.sender then w.br.buyerIntents env.sender ++ [intentId]
              else w.br.buyerIntents a } })

/-- `CrossChainBridge.executeIntent` (lines 183-204): onlyOwner; the intent
must exist (`buyer != 0`) and not be executed; the proof must be verified;
marks the intent executed (`executedAt`, `accessToken`) and then calls
`marketplace.executePurchase(tokenId, amount, accessToken)` with the bridge
contract as `msg.sender`.  There is no try/catch, so a failing sub-call
reverts the entire transaction. -/
def Bridge.executeIntent (env : Env) (intentId proofHash : Bytes32)
    (accessToken : String) (w : World) : Except Err World :=
  if env.sender ≠ w.br.owner then .error .notOwner
  else
    let intent := w.br.intents intentId
    if intent.buyer = 0 then .error .intentNotFound
    else if intent.isExecuted then .error .intentAlreadyExecuted
    else if w.br.verifiedProofs proofHash = false then .error .invalidProof
    else
      let intent1 := { intent with isExecuted := true, executedAt := env.ts, accessToken := accessToken }
      let w1 := { w with br := { w.br with
        intents := fun k => if k = intentId then intent1 else w.br.intents k } }
      match Marketplace.executePurchase ⟨w.bridgeAddr, env.ts, env.bn⟩ intent.tokenId intent.amount accessToken w1 with
      | .error e => .error e
      | .ok (_, w2) => .ok w2

/-- `CrossChainBridge.settleIntent` (lines 211-227): onlyOwner; the intent
must exist, be executed and not yet settled (the latter reuses
`IntentAlreadyExecuted`); the settlement proof must be verified; marks the
intent settled. -/
def Bridge.settleIntent (env : Env) (intentId proofHash : Bytes32) (w : World) :
    Except Err World :=
  if env.sender ≠ w.br.owner then .error .notOwner
  else
    let intent := w.br.intents intentId
    if intent.buyer = 0 then .error .intentNotFound
    else if intent.isExecuted = false then .error .intentNotExecuted
    else if intent.isSettled then .error .intentAlreadyExecuted
    else if w.br.verifiedProofs proofHash = false then .error .invalidProof
    else .ok { w with br := { w.br with
      intents := fun k =>
        if k = intentId then { intent with isSettled := true } else w.br.intents k } }

/-- `CrossChainBridge.verifyProof` (lines 235-238): onlyOwner; records the
verdict for `proofHash` verbatim. -/
def Bridge.verifyProof (env : Env) (proofHash : Bytes32) (isValid : Bool)
    (w : World) : Except Err World :=
  if env.sender ≠ w.br.owner then .error .notOwner
  else .ok { w with br := { w.br with
    verifiedProofs := fun k => if k = proofHash then isValid else w.br.verifiedProofs k } }

/-- `CrossChainBridge.updateChainSupport`: onlyOwner. -/
def Bridge.updateChainSupport (env : Env) (chainId : Nat) (supported : Bool)
    (w : World) : Except Err World :=
  if env.sender ≠ w.br.owner then .error .notOwner
  else .ok { w with br := { w.br with
    supportedChains := fun c => if c = chainId then supported else w.br.supportedChains c } }

/-- `CrossChainBridge.isChainSupported`. -/
def Bridge.isChainSupported (w : World) (chainId : Nat) : Bool :=
  w.br.supportedChains chainId

/-- `CrossChainBridge.getIntentStatus`. -/
def Bridge.getIntentStatus (w : World) (intentId : Bytes32) : Bool × Bool :=
  ((w.br.intents intentId).isExecuted, (w.br.intents intentId).isSettled)

/-- `CrossChainBridge.pause`. -/
def Bridge.pause (env : Env) (w : World) : Except Err World :=
  if env.sender ≠ w.br.owner then .error .notOwner
  else if w.br.paused then .error .pausedErr
  else .ok { w with br := { w.br with paused := true } }

/-- `CrossChainBridge.unpause`. -/
def Bridge.unpause (env : Env) (w : World) : Except Err World :=
  if env.sender ≠ w.br.owner then .error .notOwner
  else if w.br.paused = false then .error .notPausedErr
  else .ok { w with br := { w.br with paused := false } }

/-- `CrossChainBridge.emergencyRecover`, modelled for the USDC token only. -/
def Bridge.emergencyRecover (env : Env) (toA amount : Nat) (w : World) :
    Except Err World :=
  if env.sender ≠ w.br.owner then .error .notOwner
  else if toA = 0 then .error .zeroAddress
  else
    match ERC20.transfer w.bridgeAddr toA amount w.usdc with
    | .error e => .error e
    | .ok u => .ok { w with usdc := u }

/-- Ownable `transferOwnership` on the bridge. -/
def Bridge.transferOwnership (env : Env) (newOwner : Nat) (w : World) :
    Except Err World :=
  if env.sender ≠ w.br.owner then .error .notOwner
  else if newOwner = 0 then .error .zeroAddress
  else .ok { w with br := { w.br with owner := newOwner } }

/-- Every state-mutating external entry point of the system (view functions
excluded; Ownable renounce and ERC-721 operator approvals not modelled). -/
inductive Op where
  | mintDataset (env : Env) (toA : Nat) (cid name description : String)
      (price : Nat) (accessPolicy : String) (maxSupply : Nat)
  | updateDataset (env : Env) (tokenId newPrice : Nat) (newAccessPolicy : String)
  | deactivateDataset (env : Env) (tokenId : Nat)
  | grantAccess (env : Env) (tokenId buyer amount : Nat)
  | transferNFT (env : Env) (fromA toA tokenId : Nat)
  | transferOwnershipDC (env : Env) (newOwner : Nat)
  | executePurchase (env : Env) (tokenId amount : Nat) (accessToken : String)
  | updatePlatformFee (env : Env) (newFeeBps : Nat)
  | withdrawFees (env : Env) (toA amount : Nat)
  | pauseMarket (env : Env)
  | unpauseMarket (env : Env)
  | emergencyRecoverMarket (env : Env) (toA amount : Nat)
  | transferOwnershipMarket (env : Env) (newOwner : Nat)
  | createIntent (env : Env) (tokenId amount sourceChainId destinationChainId : Nat)
  | executeIntent (env : Env) (intentId proofHash : Bytes32) (accessToken : String)
  | settleIntent (env : Env) (intentId proofHash : Bytes32)
  | verifyProof (env : Env) (proofHash : Bytes32) (isValid : Bool)
  | updateChainSupport (env : Env) (chainId : Nat) (supported : Bool)
  | pauseBridge (env : Env)
  | unpauseBridge (env : Env)
  | emergencyRecoverBridge (env : Env) (toA amount : Nat)
  | transferOwnershipBridge (env : Env) (newOwner : Nat)
  | usdcTransfer (env : Env) (toA amount : Nat)
  | usdcTransferFrom (env : Env) (fromA toA amount : Nat)
  | usdcApprove (env : Env) (spender amount : Nat)

/-- One transaction: dispatch an `Op` to its contract function, discarding
return data. -/
def exec (o : Op) (w : World) : Except Err World :=
  match o with
  | .mintDataset env toA cid name description price accessPolicy maxSupply =>
    match DataCoin.mintDataset env toA cid name description price accessPolicy maxSupply w.dc with
    | .error e => .error e
    | .ok (_, dc') => .ok { w with dc := dc' }
  | .updateDataset env tokenId newPrice newAccessPolicy =>
    match DataCoin.updateDataset env tokenId newPrice newAccessPolicy w.dc with
    | .error e => .error e
    | .ok dc' => .ok { w with dc := dc' }
  | .deactivateDataset env tokenId =>
    match DataCoin.deactivateDataset env tokenId w.dc with
    | .error e => .error e
    | .ok dc' => .ok { w with dc := dc' }
  | .grantAccess env tokenId buyer amount =>
    match DataCoin.grantAccess env tokenId buyer amount w.dc with
    | .error e => .error e
    | .ok dc' => .ok { w with dc := dc' }
  | .transferNFT env fromA toA tokenId =>
    match DataCoin.transferNFT env fromA toA tokenId w.dc with
    | .error e => .error e
    | .ok dc' => .ok { w with dc := dc' }
  | .transferOwnershipDC env newOwner =>
    match DataCoin.transferOwnership env newOwner w.dc with
    | .error e => .error e
    | .ok dc' => .ok { w with dc := dc' }
  | .executePurchase env tokenId amount accessToken =>
    match Marketplace.executePurchase env tokenId amount accessToken w with
    | .error e => .error e
    | .ok (_, w') => .ok w'
  | .updatePlatformFee env newFeeBps => Marketplace.updatePlatformFee env newFeeBps w
  | .withdrawFees env toA amount => Marketplace.withdrawFees env toA amount w
  | .pauseMarket env => Marketplace.pause env w
  | .unpauseMarket env => Marketplace.unpause env w
  | .emergencyRecoverMarket env toA amount => Marketplace.emergencyRecover env toA amount w
  | .transferOwnershipMarket env newOwner => Marketplace.transferOwnership env newOwner w
  | .createIntent env tokenId amount sourceChainId destinationChainId =>
    match Bridge.createIntent env tokenId amount sourceChainId destinationChainId w with
    | .error e => .error e
    | .ok (_, w') => .ok w'
  | .executeIntent env intentId proofHash accessToken =>
    Bridge.executeIntent env intentId proofHash accessToken w
  | .settleIntent env intentId proofHash => Bridge.settleIntent env intentId proofHash w
  | .verifyProof env proofHash isValid => Bridge.verifyProof env proofHash isValid w
  | .updateChainSupport env chainId supported => Bridge.updateChainSupport env chainId supported w
  | .pauseBridge env => Bridge.pause env w
  | .unpauseBridge env => Bridge.unpause env w
  | .emergencyRecoverBridge env toA amount => Bridge.emergencyRecover env toA amount w
  | .transferOwnershipBridge env newOwner => Bridge.transferOwnership env newOwner w
  | .usdcTransfer env toA amount =>
    match ERC20.transfer env.sender toA amount w.usdc with
    | .error e => .error e
    | .ok u => .ok { w with usdc := u }
  | .usdcTransferFrom env fromA toA amount =>
    match ERC20.transferFrom env.sender fromA toA amount w.usdc with
    | .error e => .error e
    | .ok u => .ok { w with usdc := u }
  | .usdcApprove env spender amount =>
    match ERC20.approve env spender amount w.usdc with
    | .error e => .error e
    | .ok u => .ok { w with usdc := u }

/-- Transaction semantics: a reverting call rolls back every write, leaving
the pre-state. -/
def applyOp (o : Op) (w : World) : World :=
  match exec o w with
  | .ok w' => w'
  | .error _ => w

/-- Run a sequence of transactions. -/
def run (w : World) (ops : List Op) : World :=
  ops.foldl (fun s o => applyOp o s) w

/-- The deployed initial state (constructors of the four contracts):
`deployer` owns all three contracts, the fee is 250 bps, nothing is paused,
no datasets / purchases / intents / proofs exist, the bridge supports chains
1, 137, 42161, 10 and 8453, and the currency holder starts with balances
`bal` and no allowances. -/
def initWorld (deployer marketA bridgeA : Nat) (bal : Nat → Nat) : World :=
  { dc := { tokenIds := 0, datasets := fun _ => DatasetInfo.zero,
            cidToTokenId := fun _ => 0, owners := fun _ => 0, owner := deployer }
    mp := { platformFeeBps := 250, purchases := fun _ => PurchaseRecord.zero,
            buyerPurchases := fun _ => [], tokenSales := fun _ => 0,
            paused := false, owner := deployer }
    br := { supportedChains := fun c =>
              c == 1 || c == 137 || c == 42161 || c == 10 || c == 8453,
            intents := fun _ => CrossChainIntent.zero,
            buyerIntents := fun _ => [], verifiedProofs := fun _ => false,
            paused := false, owner := deployer }
    usdc := { balances := bal, allowance := fun _ _ => 0 }
    marketAddr := marketA
    bridgeAddr := bridgeA }

/-! ## Footprint classification of operations -/

/-- The one kind of transaction that writes the purchase record at key `k`:
a direct `executePurchase`, or an `executeIntent` whose nested purchase
derives `k` (the nested call runs with the bridge as buyer). -/
def writesPurchase (o : Op) (w : World) (k : Bytes32) : Bool :=
  match o with
  | .executePurchase env tokenId amount _ =>
    Bytes32.pid tokenId env.sender amount env.ts env.bn == k
  | .executeIntent env intentId _ _ =>
    Bytes32.pid (w.br.intents intentId).tokenId w.bridgeAddr
      (w.br.intents intentId).amount env.ts env.bn == k
  | _ => false

/-- The one kind of transaction that overwrites the intent stored at key `k`
with a fresh (unexecuted, unsettled) intent: a `createIntent` whose derived
id is `k`. -/
def overwritesIntent (o : Op) (k : Bytes32) : Bool :=
  match o with
  | .createIntent env tokenId amount sourceChainId destinationChainId =>
    Bytes32.iid env.sender tokenId amount sourceChainId destinationChainId
      env.ts env.bn == k
  | _ => false

/-- Whether the transaction is a `verifyProof` call. -/
def isVerifyProof (o : Op) : Bool :=
  match o with
  | .verifyProof _ _ _ => true
  | _ => false

/-- Whether the transaction is a `mintDataset` call. -/
def isMint (o : Op) : Bool :=
  match o with
  | .mintDataset _ _ _ _ _ _ _ _ => true
  | _ => false

/-- The ids returned by the successful `mintDataset` calls of a transaction
sequence, in order. -/
def traceMintIds : World → List Op → List Nat
  | _, [] => []
  | w, .mintDataset env toA cid name description price accessPolicy maxSupply :: ops =>
    match DataCoin.mintDataset env toA cid name description price accessPolicy
        maxSupply w.dc with
    | .ok (tid, dc') => tid :: traceMintIds { w with dc := dc' } ops
    | .error _ => traceMintIds w ops
  | w, o :: ops => traceMintIds (applyOp o w) ops

/-! ## Concrete scenario states -/

/-- A short content id used by the concrete scenarios. -/
def demoCid : String := "c"

/-- A short dataset name used by the concrete scenarios. -/
def demoName : String := "n"

/-- A sample access token. -/
def tokA : String := "a"

/-- A second, different sample access token. -/
def tokB : String := "b"

/-- A concrete deployed configuration: deployer 1, marketplace contract 10,
bridge contract 11, dataset creator 2, buyer 3.  DataCoin's ownership has
been transferred to the marketplace (`grantAccess` is owner-only, and the
purchase flow calls it from the marketplace); dataset 1 is active with the
given price and max supply; the buyer holds `balance` USDC and has approved
the marketplace for `allowanceAmt`. -/
def demoWorld (price maxSupply balance allowanceAmt : Nat) : World :=
  let w := initWorld 1 10 11 (fun a => if a = 3 then balance else 0)
  let w := { w with dc :=
    { w.dc with
      owner := 10
      tokenIds := 1
      owners := fun t => if t = 1 then 2 else 0
      datasets := fun t =>
        if t = 1 then
          { cid := demoCid, name := demoName, description := "",
            price := price, creator := 2, isActive := true, createdAt := 0,
            accessPolicy := "", totalSupply := maxSupply, soldSupply := 0 }
        else DatasetInfo.zero
      cidToTokenId := fun c => if c = demoCid then 1 else 0 } }
  { w with usdc := { w.usdc with
      allowance := fun o sp =>
        if o = 3 then (if sp = 10 then allowanceAmt else 0) else 0 } }

/-- Transaction context of the concrete purchase scenarios: buyer 3 calls at
block.timestamp 100, block.number 5. -/
def c1Env : Env := ⟨3, 100, 5⟩

/-- The spec's purchase scenario: dataset priced 1 USDC (1\_000\_000 units),
buyer holding 10 USDC, default 250 bps fee. -/
def c1World : World := demoWorld 1000000 0 10000000 1000000

/-- The result of the scenario purchase (fallback value on failure). -/
def c1Run : PurchaseOut × World :=
  match Marketplace.executePurchase c1Env 1 1 tokA c1World with
  | .ok p => p
  | .error _ =>
    ({ purchaseId := Bytes32.raw 0, totalCost := 0, platformFee := 0,
       creatorRevenue := 0 }, c1World)

/-- Executable check of the spec's purchase scenario: quantity 1 at price
1\_000\_000 with the default 250 bps fee leaves the creator with 975\_000,
the marketplace holding 25\_000, and the buyer at 9\_000\_000. -/
def c1check : Bool :=
  match Marketplace.executePurchase c1Env 1 1 tokA c1World with
  | .ok (o, w') =>
    (c1World.mp.platformFeeBps == 250) && (c1World.usdc.balances 3 == 10000000)
      && (o.totalCost == 1000000) && (o.platformFee == 25000)
      && (o.creatorRevenue == 975000) && (w'.usdc.balances 2 == 975000)
      && (w'.usdc.balances 10 == 25000) && (w'.usdc.balances 3 == 9000000)
  | .error _ => false

/-- The derived id of an intent by buyer 3 for (dataset 1, quantity 1,
chains 1 to 137) at timestamp 100 in block 5. -/
def c2Key : Bytes32 := .iid 3 1 1 1 137 100 5

/-- A state in which the intent stored under `c2Key` is already executed and
settled. -/
def c2World : World :=
  let w := demoWorld 1000000 0 10000000 1000000
  let done : CrossChainIntent :=
    { intentId := c2Key, buyer := 3, tokenId := 1, amount := 1,
      sourceChainId := 1, destinationChainId := 137,
      usdcAmount := 1000000, isExecuted := true, isSettled := true,
      createdAt := 90, executedAt := 95, accessToken := tokA }
  let ints : Bytes32 → CrossChainIntent := fun k =>
    if k = c2Key then done else CrossChainIntent.zero
  { w with br := { w.br with intents := ints } }

/-- Executable counterexample: a second `createIntent` with the same buyer,
parameters, timestamp and block number derives the same intentId and
overwrites the executed and settled intent with a fresh one, resetting both
flags to false. -/
def c2check : Bool :=
  ((c2World.br.intents c2Key).isExecuted == true)
    && ((c2World.br.intents c2Key).isSettled == true)
    && match Bridge.createIntent ⟨3, 100, 5⟩ 1 1 1 137 c2World with
       | .ok (i, w') =>
         (i == c2Key) && ((w'.br.intents c2Key).isExecuted == false)
           && ((w'.br.intents c2Key).isSettled == false)
       | .error _ => false

/-- A state with a pending (created, unexecuted) intent under key `raw 3`,
a verified proof under key `raw 7`, and the marketplace paused, so the
nested purchase of `executeIntent` must fail. -/
def c3World : World :=
  let w := demoWorld 1000000 0 10000000 1000000
  let w := { w with mp := { w.mp with paused := true } }
  let pending : CrossChainIntent :=
    { intentId := Bytes32.raw 3, buyer := 3, tokenId := 1, amount := 1,
      sourceChainId := 1, destinationChainId := 137,
      usdcAmount := 1000000, isExecuted := false, isSettled := false,
      createdAt := 90, executedAt := 0, accessToken := "" }
  let ints : Bytes32 → CrossChainIntent := fun k =>
    if k = Bytes32.raw 3 then pending else CrossChainIntent.zero
  let proofs : Bytes32 → Bool := fun k => k == Bytes32.raw 7
  { w with br := { w.br with intents := ints, verifiedProofs := proofs } }

/-- A state with one active purchase record under key `raw 1`, issued at
timestamp 50 with access token `tokA`. -/
def c4World : World :=
  let w := initWorld 1 10 11 (fun _ => 0)
  let issued : PurchaseRecord :=
    { tokenId := 1, buyer := 3, amount := 1, price := 5, timestamp := 50,
      isActive := true, accessToken := tokA }
  let pu : Bytes32 → PurchaseRecord := fun k =>
    if k = Bytes32.raw 1 then issued else PurchaseRecord.zero
  { w with mp := { w.mp with purchases := pu } }

/-- A two-mint transaction sequence from the deployed state. -/
def c5Ops : List Op :=
  [ .mintDataset ⟨1, 10, 1⟩ 2 tokA demoName "" 5 "" 0,
    .mintDataset ⟨1, 11, 2⟩ 2 tokB demoName "" 7 "" 0 ]

/-- The deployed state used by the mint-sequence witness. -/
def c5Init : World := initWorld 1 10 11 fun _ => 0

/-- The demo state with dataset 1 deactivated. -/
def c6World : World :=
  let w := demoWorld 1000000 0 10000000 1000000
  let inactive : DatasetInfo :=
    { cid := demoCid, name := demoName, description := "",
      price := 1000000, creator := 2, isActive := false, createdAt := 0,
      accessPolicy := "", totalSupply := 0, soldSupply := 0 }
  let ds : Nat → DatasetInfo := fun t =>
    if t = 1 then inactive else DatasetInfo.zero
  { w with dc := { w.dc with datasets := ds } }

/-- Failing input for the supply-cap invariant: dataset 1 has
`totalSupply = 1` (the mint's `maxSupply` argument) but a funded buyer
purchases quantity 2; the code increments `soldSupply` to 2 with no cap
check. -/
def c8World : World := demoWorld 1 1 2 2

/-- Executable exhibit of the supply-cap violation. -/
def c8check : Bool :=
  match Marketplace.executePurchase c1Env 1 2 tokA c8World with
  | .ok (_, w') =>
    ((w'.dc.datasets 1).totalSupply == 1) && ((w'.dc.datasets 1).soldSupply == 2)
      && ((w'.dc.datasets 1).totalSupply < (w'.dc.datasets 1).soldSupply)
  | .error _ => false

/-- A funded configuration allowing two unit purchases of the 1-unit-price
dataset. -/
def c9World : World := demoWorld 1 0 4 4

/-- Executable counterexample: two successful purchases by the same buyer of
the same dataset and quantity within one block derive the same purchaseId;
the second overwrites the first record (the stored access token changes), so
the id is not fresh and the record is mutated. -/
def c9check : Bool :=
  match Marketplace.executePurchase c1Env 1 1 tokA c9World with
  | .ok (o1, w1) =>
    (match Marketplace.executePurchase c1Env 1 1 tokB w1 with
     | .ok (o2, w2) =>
       (o1.purchaseId == o2.purchaseId)
         && ((w1.mp.purchases o1.purchaseId).accessToken == tokA)
         && ((w2.mp.purchases o1.purchaseId).accessToken == tokB)
     | .error _ => false)
  | .error _ => false

/-- A state with an executed, unsettled intent under key `raw 3` and a
verified proof under key `raw 7`. -/
def c10World : World :=
  let w := demoWorld 1000000 0 10000000 1000000
  let executedIntent : CrossChainIntent :=
    { intentId := Bytes32.raw 3, buyer := 3, tokenId := 1, amount := 1,
      sourceChainId := 1, destinationChainId := 137,
      usdcAmount := 1000000, isExecuted := true, isSettled := false,
      createdAt := 90, executedAt := 95, accessToken := tokA }
  let ints : Bytes32 → CrossChainIntent := fun k =>
    if k = Bytes32.raw 3 then executedIntent else CrossChainIntent.zero
  let proofs : Bytes32 → Bool := fun k => k == Bytes32.raw 7
  { w with br := { w.br with intents := ints, verifiedProofs := proofs } }

/-! ## Helper lemmas: success and error characterisations of each operation -/

/-- A reverting transaction leaves the state unchanged. -/
theorem applyOp_error {o : Op} {w : World} {e : Err} (h : exec o w = .error e) :
    applyOp o w = w := by
  simp [applyOp, h]

/-- A successful transaction yields the returned state. -/
theorem applyOp_ok {o : Op} {w : World} {w' : World} (h : exec o w = .ok w') :
    applyOp o w = w' := by
  simp [applyOp, h]

/-- Successful `getDatasetInfo` returns the stored record of an existing
token. -/
theorem getDatasetInfo_ok {s : DataCoinState} {tokenId : Nat} {d : DatasetInfo}
    (h : DataCoin.getDatasetInfo s tokenId = .ok d) :
    d = s.datasets tokenId ∧ s.owners tokenId ≠ 0 := by
  unfold DataCoin.getDatasetInfo at h
  split at h
  · exact Except.noConfusion h
  · exact ⟨((Except.ok.injEq _ _).mp h).symm, by assumption⟩

/-- The only error of `getDatasetInfo` is the nonexistent-token revert. -/
theorem getDatasetInfo_err {s : DataCoinState} {tokenId : Nat} {e : Err}
    (h : DataCoin.getDatasetInfo s tokenId = .error e) :
    e = .tokenDoesNotExist ∧ s.owners tokenId = 0 := by
  unfold DataCoin.getDatasetInfo at h
  split at h
  · exact ⟨((Except.error.injEq _ _).mp h).symm, by assumption⟩
  · exact Except.noConfusion h

/-- Successful `grantAccess` adds exactly `amount` to the sold supply of the
one dataset and touches nothing else. -/
theorem grantAccess_ok {env : Env} {tokenId buyer amount : Nat}
    {s s' : DataCoinState}
    (h : DataCoin.grantAccess env tokenId buyer amount s = .ok s') :
    s'.tokenIds = s.tokenIds ∧ s'.cidToTokenId = s.cidToTokenId ∧
    s'.owners = s.owners ∧ s'.owner = s.owner ∧
    (∀ t, t ≠ tokenId → s'.datasets t = s.datasets t) ∧
    s'.datasets tokenId =
      { (s.datasets tokenId) with
          soldSupply := (s.datasets tokenId).soldSupply + amount } := by
  unfold DataCoin.grantAccess at h
  split at h
  · exact Except.noConfusion h
  split at h
  · exact Except.noConfusion h
  split at h
  · exact Except.noConfusion h
  obtain rfl := ((Except.ok.injEq _ _).mp h).symm
  refine ⟨rfl, rfl, rfl, rfl, fun t ht => ?_, ?_⟩
  · simp [ht]
  · simp

/-- The errors of `grantAccess`. -/
theorem grantAccess_err {env : Env} {tokenId buyer amount : Nat}
    {s : DataCoinState} {e : Err}
    (h : DataCoin.grantAccess env tokenId buyer amount s = .error e) :
    e = .notOwner ∨ e = .tokenDoesNotExist ∨ e = .datasetNotActive := by
  unfold DataCoin.grantAccess at h
  split at h
  · exact .inl ((Except.error.injEq _ _).mp h).symm
  split at h
  · exact .inr (.inl ((Except.error.injEq _ _).mp h).symm)
  split at h
  · exact .inr (.inr ((Except.error.injEq _ _).mp h).symm)
  · exact Except.noConfusion h

/-- The only error of the modelled currency `transfer`. -/
theorem transfer_err {fromA toA amount : Nat} {s : ERC20State} {e : Err}
    (h : ERC20.transfer fromA toA amount s = .error e) :
    e = .erc20InsufficientBalance := by
  unfold ERC20.transfer at h
  split at h
  · exact ((Except.error.injEq _ _).mp h).symm
  · exact Except.noConfusion h

/-- The errors of the modelled currency `transferFrom`. -/
theorem transferFrom_err {spender fromA toA amount : Nat} {s : ERC20State}
    {e : Err} (h : ERC20.transferFrom spender fromA toA amount s = .error e) :
    e = .erc20InsufficientAllowance ∨ e = .erc20InsufficientBalance := by
  unfold ERC20.transferFrom at h
  split at h
  · exact .inl ((Except.error.injEq _ _).mp h).symm
  · split at h
    · rename_i heq
      exact .inr ((transfer_err heq).symm ▸ ((Except.error.injEq _ _).mp h).symm)
    · exact Except.noConfusion h

/-- Full characterisation of a successful `executePurchase`: the derived
purchase id, the fee arithmetic, the recorded purchase and the precise
footprint of the call (bridge storage, DataCoin counters, cid registry and
token owners untouched; one purchase record and one dataset's sold supply
written). -/
theorem executePurchase_ok {env : Env} {tokenId amount : Nat} {tok : String}
    {w : World} {out : PurchaseOut} {w' : World}
    (h : Marketplace.executePurchase env tokenId amount tok w = .ok (out, w')) :
    out.purchaseId = Bytes32.pid tokenId env.sender amount env.ts env.bn ∧
    w'.br = w.br ∧
    w'.marketAddr = w.marketAddr ∧
    w'.bridgeAddr = w.bridgeAddr ∧
    w'.mp.platformFeeBps = w.mp.platformFeeBps ∧
    w'.mp.paused = w.mp.paused ∧
    w'.mp.owner = w.mp.owner ∧
    (∀ k, k ≠ out.purchaseId → w'.mp.purchases k = w.mp.purchases k) ∧
    w'.mp.purchases out.purchaseId =
      { tokenId := tokenId, buyer := env.sender, amount := amount,
        price := (w.dc.datasets tokenId).price, timestamp := env.ts,
        isActive := true, accessToken := tok } ∧
    w'.dc.tokenIds = w.dc.tokenIds ∧
    w'.dc.cidToTokenId = w.dc.cidToTokenId ∧
    w'.dc.owners = w.dc.owners ∧
    w'.dc.owner = w.dc.owner ∧
    (∀ t, t ≠ tokenId → w'.dc.datasets t = w.dc.datasets t) ∧
    w'.dc.datasets tokenId =
      { (w.dc.datasets tokenId) with
          soldSupply := (w.dc.datasets tokenId).soldSupply + amount } ∧
    out.totalCost = (w.dc.datasets tokenId).price * amount ∧
    out.platformFee = out.totalCost * w.mp.platformFeeBps / 10000 ∧
    out.creatorRevenue = out.totalCost - out.platformFee ∧
    out.platformFee ≤ out.totalCost ∧
    (w.dc.datasets tokenId).isActive = true ∧
    w.mp.paused = false ∧
    0 < out.totalCost := by
  simp only [Marketplace.executePurchase] at h
  split at h
  · exact Except.noConfusion h
  rename_i hpaused
  rcases hd : DataCoin.getDatasetInfo w.dc tokenId with e | dataset
  · simp only [hd] at h; exact Except.noConfusion h
  simp only [hd] at h
  obtain ⟨rfl, hown⟩ := getDatasetInfo_ok hd
  split at h
  · exact Except.noConfusion h
  rename_i hactive
  split at h
  · exact Except.noConfusion h
  rename_i hov1
  split at h
  · exact Except.noConfusion h
  rename_i hcost0
  split at h
  · exact Except.noConfusion h
  rename_i hbal
  split at h
  · exact Except.noConfusion h
  rename_i hov2
  split at h
  · exact Except.noConfusion h
  rename_i hunder
  rcases hu1 : ERC20.transferFrom w.marketAddr env.sender w.marketAddr
      ((w.dc.datasets tokenId).price * amount) w.usdc with e | u1
  · simp only [hu1] at h; exact Except.noConfusion h
  simp only [hu1] at h
  rcases hu2 : ERC20.transfer w.marketAddr (w.dc.datasets tokenId).creator
      ((w.dc.datasets tokenId).price * amount -
        (w.dc.datasets tokenId).price * amount * w.mp.platformFeeBps / 10000) u1 with e | u2
  · simp only [hu2] at h; exact Except.noConfusion h
  simp only [hu2] at h
  rcases hga : DataCoin.grantAccess ⟨w.marketAddr, env.ts, env.bn⟩ tokenId
      env.sender amount w.dc with e | dc1
  · simp only [hga] at h; exact Except.noConfusion h
  simp only [hga] at h
  simp only [Except.ok.injEq, Prod.mk.injEq] at h
  obtain ⟨ho, hw⟩ := h
  subst ho hw
  obtain ⟨g1, g2, g3, g4, g5, g6⟩ := grantAccess_ok hga
  simp only [not_lt] at hunder
  refine ⟨rfl, rfl, rfl, rfl, rfl, rfl, rfl, ?_, ?_, g1, g2, g3, g4, g5, g6,
    rfl, rfl, rfl, hunder, ?_, ?_, ?_⟩
  · intro k hk; simp [hk]
  · simp
  · simpa using hactive
  · simpa using hpaused
  · have hne : (w.dc.datasets tokenId).price * amount ≠ 0 := by simpa using hcost0
    simpa using Nat.pos_of_ne_zero hne

/-- `executePurchase` never reads the bridge's storage: running it with a
replaced bridge state gives the same outcome with that bridge state carried
through. -/
theorem executePurchase_congr_br (env : Env) (tokenId amount : Nat)
    (tok : String) (w : World) (b : BridgeState) :
    Marketplace.executePurchase env tokenId amount tok { w with br := b } =
    (Marketplace.executePurchase env tokenId amount tok w).map
      fun p => (p.1, { p.2 with br := b }) := by
  unfold Marketplace.executePurchase
  dsimp only
  split
  · rfl
  rcases hd : DataCoin.getDatasetInfo w.dc tokenId with e | dataset
  · rfl
  dsimp only
  split
  · rfl
  split
  · rfl
  split
  · rfl
  split
  · rfl
  split
  · rfl
  split
  · rfl
  rcases hu1 : ERC20.transferFrom w.marketAddr env.sender w.marketAddr
      (dataset.price * amount) w.usdc with e | u1
  · rfl
  dsimp only
  rcases hu2 : ERC20.transfer w.marketAddr dataset.creator
      (dataset.price * amount - dataset.price * amount * w.mp.platformFeeBps / 10000)
      u1 with e | u2
  · rfl
  dsimp only
  rcases hga : DataCoin.grantAccess ⟨w.marketAddr, env.ts, env.bn⟩ tokenId
      env.sender amount w.dc with e | dc1
  · rfl
  dsimp only
  rfl

/-- Full characterisation of a successful `mintDataset`: the returned id is
`_tokenIds + 1`, the counter is incremented, the record and the reverse cid
mapping are written, the NFT is minted, and all preconditions held. -/
theorem mintDataset_ok {env : Env} {toA : Nat} {cid name description : String}
    {price : Nat} {accessPolicy : String} {maxSupply : Nat}
    {s s' : DataCoinState} {tid : Nat}
    (h : DataCoin.mintDataset env toA cid name description price accessPolicy
      maxSupply s = .ok (tid, s')) :
    tid = s.tokenIds + 1 ∧
    s'.tokenIds = s.tokenIds + 1 ∧
    env.sender = s.owner ∧ cid ≠ "" ∧ name ≠ "" ∧ price ≠ 0 ∧
    s.cidToTokenId cid = 0 ∧ toA ≠ 0 ∧
    (∀ c, c ≠ cid → s'.cidToTokenId c = s.cidToTokenId c) ∧
    s'.cidToTokenId cid = s.tokenIds + 1 ∧
    s'.owner = s.owner ∧
    (∀ t, t ≠ s.tokenIds + 1 → s'.datasets t = s.datasets t ∧ s'.owners t = s.owners t) ∧
    s'.datasets (s.tokenIds + 1) =
      { cid := cid, name := name, description := description, price := price,
        creator := toA, isActive := true, createdAt := env.ts,
        accessPolicy := accessPolicy, totalSupply := maxSupply, soldSupply := 0 } ∧
    s'.owners (s.tokenIds + 1) = toA := by
  simp only [DataCoin.mintDataset] at h
  split at h
  · exact Except.noConfusion h
  rename_i hown
  split at h
  · exact Except.noConfusion h
  rename_i hcid
  split at h
  · exact Except.noConfusion h
  rename_i hname
  split at h
  · exact Except.noConfusion h
  rename_i hprice
  split at h
  · exact Except.noConfusion h
  rename_i hdup
  split at h
  · exact Except.noConfusion h
  rename_i hzero
  simp only [Except.ok.injEq, Prod.mk.injEq] at h
  obtain ⟨ht, hs⟩ := h
  subst ht hs
  simp only [not_not, Decidable.not_not] at hown hdup
  refine ⟨rfl, rfl, by simpa using hown, hcid, hname, hprice, by simpa using hdup,
    hzero, fun c hc => by simp [hc], by simp, rfl, fun t htk => ⟨by simp [htk], by simp [htk]⟩,
    by simp, by simp⟩

/-- Full characterisation of a successful `createIntent`: the derived intent
id, the stored intent (executed = settled = false) and the footprint (only
the bridge's intent storage and buyer index change). -/
theorem createIntent_ok {env : Env}
    {tokenId amount sourceChainId destinationChainId : Nat}
    {w : World} {iid : Bytes32} {w' : World}
    (h : Bridge.createIntent env tokenId amount sourceChainId destinationChainId w
      = .ok (iid, w')) :
    iid = Bytes32.iid env.sender tokenId amount sourceChainId destinationChainId
      env.ts env.bn ∧
    w.br.paused = false ∧
    w.br.supportedChains sourceChainId = true ∧
    w.br.supportedChains destinationChainId = true ∧
    amount ≠ 0 ∧
    w.dc.owners tokenId ≠ 0 ∧
    (w.dc.datasets tokenId).isActive = true ∧
    w'.dc = w.dc ∧ w'.mp = w.mp ∧ w'.usdc = w.usdc ∧
    w'.marketAddr = w.marketAddr ∧ w'.bridgeAddr = w.bridgeAddr ∧
    w'.br.supportedChains = w.br.supportedChains ∧
    w'.br.verifiedProofs = w.br.verifiedProofs ∧
    w'.br.paused = w.br.paused ∧
    w'.br.owner = w.br.owner ∧
    (∀ k, k ≠ iid → w'.br.intents k = w.br.intents k) ∧
    w'.br.intents iid =
      { intentId := iid, buyer := env.sender, tokenId := tokenId,
        amount := amount, sourceChainId := sourceChainId,
        destinationChainId := destinationChainId,
        usdcAmount := (w.dc.datasets tokenId).price * amount,
        isExecuted := false, isSettled := false, createdAt := env.ts,
        executedAt := 0, accessToken := "" } := by
  simp only [Bridge.createIntent] at h
  split at h
  · exact Except.noConfusion h
  rename_i hpaused
  split at h
  · exact Except.noConfusion h
  rename_i hsrc
  split at h
  · exact Except.noConfusion h
  rename_i hdst
  split at h
  · exact Except.noConfusion h
  rename_i hamt
  rcases hd : DataCoin.getDatasetInfo w.dc tokenId with e | dataset
  · simp only [hd] at h; exact Except.noConfusion h
  simp only [hd] at h
  obtain ⟨rfl, hown⟩ := getDatasetInfo_ok hd
  split at h
  · exact Except.noConfusion h
  rename_i hactive
  split at h
  · exact Except.noConfusion h
  rename_i hov
  split at h
  · exact Except.noConfusion h
  rename_i husdc
  simp only [Except.ok.injEq, Prod.mk.injEq] at h
  obtain ⟨hi, hw⟩ := h
  subst hi hw
  refine ⟨rfl, by simpa using hpaused, by simpa using hsrc, by simpa using hdst,
    hamt, hown, by simpa using hactive, rfl, rfl, rfl, rfl, rfl, rfl, rfl, rfl, rfl,
    fun k hk => by simp [hk], by simp⟩

/-- Full characterisation of a successful `settleIntent`. -/
theorem settleIntent_ok {env : Env} {intentId proofHash : Bytes32}
    {w w' : World}
    (h : Bridge.settleIntent env intentId proofHash w = .ok w') :
    env.sender = w.br.owner ∧
    (w.br.intents intentId).buyer ≠ 0 ∧
    (w.br.intents intentId).isExecuted = true ∧
    (w.br.intents intentId).isSettled = false ∧
    w.br.verifiedProofs proofHash = true ∧
    w'.dc = w.dc ∧ w'.mp = w.mp ∧ w'.usdc = w.usdc ∧
    w'.marketAddr = w.marketAddr ∧ w'.bridgeAddr = w.bridgeAddr ∧
    w'.br.supportedChains = w.br.supportedChains ∧
    w'.br.verifiedProofs = w.br.verifiedProofs ∧
    w'.br.paused = w.br.paused ∧
    w'.br.owner = w.br.owner ∧
    (∀ k, k ≠ intentId → w'.br.intents k = w.br.intents k) ∧
    w'.br.intents intentId = { (w.br.intents intentId) with isSettled := true } := by
  simp only [Bridge.settleIntent] at h
  split at h
  · exact Except.noConfusion h
  rename_i hownr
  split at h
  · exact Except.noConfusion h
  rename_i hbuy
  split at h
  · exact Except.noConfusion h
  rename_i hexec
  split at h
  · exact Except.noConfusion h
  rename_i hset
  split at h
  · exact Except.noConfusion h
  rename_i hproof
  obtain rfl := ((Except.ok.injEq _ _).mp h).symm
  refine ⟨by simpa using hownr, hbuy, by simpa using hexec, by simpa using hset,
    by simpa using hproof, rfl, rfl, rfl, rfl, rfl, rfl, rfl, rfl, rfl,
    fun k hk => by simp [hk], by simp⟩

/-- Characterisation of a successful `verifyProof`: only the proof registry
changes, at the single given key. -/
theorem verifyProof_ok {env : Env} {proofHash : Bytes32} {isValid : Bool}
    {w w' : World}
    (h : Bridge.verifyProof env proofHash isValid w = .ok w') :
    env.sender = w.br.owner ∧
    w'.dc = w.dc ∧ w'.mp = w.mp ∧ w'.usdc = w.usdc ∧
    w'.marketAddr = w.marketAddr ∧ w'.bridgeAddr = w.bridgeAddr ∧
    w'.br.supportedChains = w.br.supportedChains ∧
    w'.br.intents = w.br.intents ∧
    w'.br.paused = w.br.paused ∧
    w'.br.owner = w.br.owner ∧
    (∀ k, k ≠ proofHash → w'.br.verifiedProofs k = w.br.verifiedProofs k) ∧
    w'.br.verifiedProofs proofHash = isValid := by
  simp only [Bridge.verifyProof] at h
  split at h
  · exact Except.noConfusion h
  rename_i hownr
  obtain rfl := ((Except.ok.injEq _ _).mp h).symm
  refine ⟨by simpa using hownr, rfl, rfl, rfl, rfl, rfl, rfl, rfl, rfl, rfl,
    fun k hk => by simp [hk], by simp⟩

/-- Full characterisation of a successful `executeIntent`: all guards held,
the one intent is marked executed (timestamp and access token stored), the
proof registry is untouched, and the nested purchase writes only its own
derived purchase record. -/
theorem executeIntent_ok {env : Env} {intentId proofHash : Bytes32}
    {tok : String} {w w' : World}
    (h : Bridge.executeIntent env intentId proofHash tok w = .ok w') :
    env.sender = w.br.owner ∧
    (w.br.intents intentId).buyer ≠ 0 ∧
    (w.br.intents intentId).isExecuted = false ∧
    w.br.verifiedProofs proofHash = true ∧
    w'.br.supportedChains = w.br.supportedChains ∧
    w'.br.verifiedProofs = w.br.verifiedProofs ∧
    w'.br.paused = w.br.paused ∧
    w'.br.owner = w.br.owner ∧
    (∀ k, k ≠ intentId → w'.br.intents k = w.br.intents k) ∧
    w'.br.intents intentId =
      { (w.br.intents intentId) with
          isExecuted := true, executedAt := env.ts, accessToken := tok } ∧
    w'.dc.tokenIds = w.dc.tokenIds ∧
    w'.dc.cidToTokenId = w.dc.cidToTokenId ∧
    w'.dc.owners = w.dc.owners ∧
    w'.dc.owner = w.dc.owner ∧
    w'.mp.platformFeeBps = w.mp.platformFeeBps ∧
    w'.mp.paused = w.mp.paused ∧
    w'.mp.owner = w.mp.owner ∧
    (∀ k, k ≠ Bytes32.pid (w.br.intents intentId).tokenId w.bridgeAddr
        (w.br.intents intentId).amount env.ts env.bn →
      w'.mp.purchases k = w.mp.purchases k) ∧
    w'.marketAddr = w.marketAddr ∧ w'.bridgeAddr = w.bridgeAddr := by
  simp only [Bridge.executeIntent] at h
  split at h
  · exact Except.noConfusion h
  rename_i hownr
  split at h
  · exact Except.noConfusion h
  rename_i hbuy
  split at h
  · exact Except.noConfusion h
  rename_i hexec
  split at h
  · exact Except.noConfusion h
  rename_i hproof
  rw [executePurchase_congr_br] at h
  rcases hp : Marketplace.executePurchase ⟨w.bridgeAddr, env.ts, env.bn⟩
      (w.br.intents intentId).tokenId (w.br.intents intentId).amount tok w
    with e | ⟨out2, w2⟩
  · simp only [hp, Except.map] at h; exact Except.noConfusion h
  simp only [hp, Except.map] at h
  obtain rfl := ((Except.ok.injEq _ _).mp h).symm
  obtain ⟨e1, e2, e3, e4, e5, e6, e7, e8, e9, e10, e11, e12, e13, e14, e15, e16,
    e17, e18, e19, e20, e21, e22⟩ := executePurchase_ok hp
  refine ⟨by simpa using hownr, hbuy, by simpa using hexec, by simpa using hproof,
    ?_, ?_, ?_, ?_, ?_, ?_, e10, e11, e12, e13, e5, e6, e7, ?_, e3, e4⟩
  · simp [e2]
  · simp [e2]
  · simp [e2]
  · simp [e2]
  · intro k hk; simp [e2, hk]
  · simp [e2]
  · intro k hk
    exact e8 k (by rw [e1]; simpa using hk)

/-- `executePurchase` never reverts with the bridge's invalid-proof error (its
error set is disjoint from the proof machinery). -/
theorem executePurchase_err_ne {env : Env} {tokenId amount : Nat} {tok : String}
    {w : World} {e : Err}
    (h : Marketplace.executePurchase env tokenId amount tok w = .error e) :
    e ≠ .invalidProof := by
  simp only [Marketplace.executePurchase] at h
  split at h
  · obtain rfl := (Except.error.injEq _ _).mp h
    simp
  rcases hd : DataCoin.getDatasetInfo w.dc tokenId with e' | dataset
  · simp only [hd] at h
    obtain ⟨rfl, _⟩ := getDatasetInfo_err hd
    obtain rfl := (Except.error.injEq _ _).mp h
    simp
  simp only [hd] at h
  obtain ⟨rfl, hown⟩ := getDatasetInfo_ok hd
  split at h
  · obtain rfl := (Except.error.injEq _ _).mp h
    simp
  split at h
  · obtain rfl := (Except.error.injEq _ _).mp h
    simp
  split at h
  · obtain rfl := (Except.error.injEq _ _).mp h
    simp
  split at h
  · obtain rfl := (Except.error.injEq _ _).mp h
    simp
  split at h
  · obtain rfl := (Except.error.injEq _ _).mp h
    simp
  split at h
  · obtain rfl := (Except.error.injEq _ _).mp h
    simp
  rcases hu1 : ERC20.transferFrom w.marketAddr env.sender w.marketAddr
      ((w.dc.datasets tokenId).price * amount) w.usdc with e' | u1
  · simp only [hu1] at h
    obtain rfl := (Except.error.injEq _ _).mp h
    rcases transferFrom_err hu1 with rfl | rfl <;> simp
  simp only [hu1] at h
  rcases hu2 : ERC20.transfer w.marketAddr (w.dc.datasets tokenId).creator
      ((w.dc.datasets tokenId).price * amount -
        (w.dc.datasets tokenId).price * amount * w.mp.platformFeeBps / 10000) u1 with e' | u2
  · simp only [hu2] at h
    obtain rfl := (Except.error.injEq _ _).mp h
    obtain rfl := transfer_err hu2
    simp
  simp only [hu2] at h
  rcases hga : DataCoin.grantAccess ⟨w.marketAddr, env.ts, env.bn⟩ tokenId
      env.sender amount w.dc with e' | dc1
  · simp only [hga] at h
    obtain rfl := (Except.error.injEq _ _).mp h
    rcases grantAccess_err hga with rfl | rfl | rfl <;> simp
  simp only [hga] at h
  exact Except.noConfusion h

/-- A second `executeIntent` on an already executed intent reverts with
`IntentAlreadyExecuted`, before the proof is even consulted. -/
theorem executeIntent_already {env : Env} {intentId proofHash : Bytes32}
    {tok : String} {w : World}
    (hownr : env.sender = w.br.owner)
    (hbuy : (w.br.intents intentId).buyer ≠ 0)
    (hexec : (w.br.intents intentId).isExecuted = true) :
    Bridge.executeIntent env intentId proofHash tok w
      = .error .intentAlreadyExecuted := by
  simp [Bridge.executeIntent, hownr, hbuy, hexec]

/-- `executeIntent` on an absent intent reverts with `IntentNotFound`. -/
theorem executeIntent_notFound {env : Env} {intentId proofHash : Bytes32}
    {tok : String} {w : World}
    (hownr : env.sender = w.br.owner)
    (hbuy : (w.br.intents intentId).buyer = 0) :
    Bridge.executeIntent env intentId proofHash tok w = .error .intentNotFound := by
  simp [Bridge.executeIntent, hownr, hbuy]

/-- `executeIntent` on an existing unexecuted intent with an unverified proof
reverts with the invalid-proof error. -/
theorem executeIntent_invalidProof {env : Env} {intentId proofHash : Bytes32}
    {tok : String} {w : World}
    (hownr : env.sender = w.br.owner)
    (hbuy : (w.br.intents intentId).buyer ≠ 0)
    (hexec : (w.br.intents intentId).isExecuted = false)
    (hproof : w.br.verifiedProofs proofHash = false) :
    Bridge.executeIntent env intentId proofHash tok w = .error .invalidProof := by
  simp [Bridge.executeIntent, hownr, hbuy, hexec, hproof]

/-- With a verified proof, `executeIntent` never reverts with the
invalid-proof error: a failure, if any, comes from the nested purchase. -/
theorem executeIntent_ne_invalidProof {env : Env} {intentId proofHash : Bytes32}
    {tok : String} {w : World}
    (hownr : env.sender = w.br.owner)
    (hbuy : (w.br.intents intentId).buyer ≠ 0)
    (hexec : (w.br.intents intentId).isExecuted = false)
    (hproof : w.br.verifiedProofs proofHash = true) :
    Bridge.executeIntent env intentId proofHash tok w ≠ .error .invalidProof := by
  simp only [Bridge.executeIntent]
  rw [executePurchase_congr_br]
  rcases hp : Marketplace.executePurchase ⟨w.bridgeAddr, env.ts, env.bn⟩
      (w.br.intents intentId).tokenId (w.br.intents intentId).amount tok w
    with e | p
  · have hne := executePurchase_err_ne hp
    simp [hownr, hbuy, hexec, hproof, hp, Except.map, hne]
  · simp [hownr, hbuy, hexec, hproof, hp, Except.map]

/-- C3 engine: when the nested `executePurchase` fails, the failure
propagates and `executeIntent` reverts with the same error (there is no
try/catch). -/
theorem executeIntent_subfail {env : Env} {intentId proofHash : Bytes32}
    {tok : String} {w : World} {e : Err}
    (hownr : env.sender = w.br.owner)
    (hbuy : (w.br.intents intentId).buyer ≠ 0)
    (hexec : (w.br.intents intentId).isExecuted = false)
    (hproof : w.br.verifiedProofs proofHash = true)
    (hsub : Marketplace.executePurchase ⟨w.bridgeAddr, env.ts, env.bn⟩
      (w.br.intents intentId).tokenId (w.br.intents intentId).amount tok w
      = .error e) :
    Bridge.executeIntent env intentId proofHash tok w = .error e := by
  simp only [Bridge.executeIntent]
  rw [executePurchase_congr_br]
  simp [hownr, hbuy, hexec, hproof, hsub, Except.map]

/-- `settleIntent` on an absent intent reverts with `IntentNotFound`. -/
theorem settleIntent_notFound {env : Env} {intentId proofHash : Bytes32}
    {w : World}
    (hownr : env.sender = w.br.owner)
    (hbuy : (w.br.intents intentId).buyer = 0) :
    Bridge.settleIntent env intentId proofHash w = .error .intentNotFound := by
  simp [Bridge.settleIntent, hownr, hbuy]

/-- `settleIntent` on an existing intent that was never executed reverts with
`IntentNotExecuted`, regardless of the proof. -/
theorem settleIntent_notExecuted {env : Env} {intentId proofHash : Bytes32}
    {w : World}
    (hownr : env.sender = w.br.owner)
    (hbuy : (w.br.intents intentId).buyer ≠ 0)
    (hexec : (w.br.intents intentId).isExecuted = false) :
    Bridge.settleIntent env intentId proofHash w = .error .intentNotExecuted := by
  simp [Bridge.settleIntent, hownr, hbuy, hexec]

/-- A second `settleIntent` on an already settled intent reverts with the
reused `IntentAlreadyExecuted` error. -/
theorem settleIntent_already {env : Env} {intentId proofHash : Bytes32}
    {w : World}
    (hownr : env.sender = w.br.owner)
    (hbuy : (w.br.intents intentId).buyer ≠ 0)
    (hexec : (w.br.intents intentId).isExecuted = true)
    (hset : (w.br.intents intentId).isSettled = true) :
    Bridge.settleIntent env intentId proofHash w = .error .intentAlreadyExecuted := by
  simp [Bridge.settleIntent, hownr, hbuy, hexec, hset]

/-- `settleIntent` on an executed, unsettled intent with an unverified proof
reverts with the invalid-proof error. -/
theorem settleIntent_invalidProof {env : Env} {intentId proofHash : Bytes32}
    {w : World}
    (hownr : env.sender = w.br.owner)
    (hbuy : (w.br.intents intentId).buyer ≠ 0)
    (hexec : (w.br.intents intentId).isExecuted = true)
    (hset : (w.br.intents intentId).isSettled = false)
    (hproof : w.br.verifiedProofs proofHash = false) :
    Bridge.settleIntent env intentId proofHash w = .error .invalidProof := by
  simp [Bridge.settleIntent, hownr, hbuy, hexec, hset, hproof]

/-- `settleIntent` succeeds outright on an executed, unsettled intent with a
verified proof. -/
theorem settleIntent_succeeds {env : Env} {intentId proofHash : Bytes32}
    {w : World}
    (hownr : env.sender = w.br.owner)
    (hbuy : (w.br.intents intentId).buyer ≠ 0)
    (hexec : (w.br.intents intentId).isExecuted = true)
    (hset : (w.br.intents intentId).isSettled = false)
    (hproof : w.br.verifiedProofs proofHash = true) :
    ∃ w', Bridge.settleIntent env intentId proofHash w = .ok w' := by
  simp [Bridge.settleIntent, hownr, hbuy, hexec, hset, hproof]


/-- `updateDataset` never touches the id counter or the cid registry. -/
theorem updateDataset_frame {env : Env} {tokenId newPrice : Nat}
    {newAccessPolicy : String} {s s' : DataCoinState}
    (h : DataCoin.updateDataset env tokenId newPrice newAccessPolicy s = .ok s') :
    s'.tokenIds = s.tokenIds ∧ s'.cidToTokenId = s.cidToTokenId := by
  simp only [DataCoin.updateDataset] at h
  repeat' (split at h)
  all_goals first
  | exact Except.noConfusion h
  | (obtain rfl := ((Except.ok.injEq _ _).mp h).symm; exact ⟨rfl, rfl⟩)

/-- `deactivateDataset` never touches the id counter or the cid registry. -/
theorem deactivateDataset_frame {env : Env} {tokenId : Nat}
    {s s' : DataCoinState}
    (h : DataCoin.deactivateDataset env tokenId s = .ok s') :
    s'.tokenIds = s.tokenIds ∧ s'.cidToTokenId = s.cidToTokenId := by
  simp only [DataCoin.deactivateDataset] at h
  repeat' (split at h)
  all_goals first
  | exact Except.noConfusion h
  | (obtain rfl := ((Except.ok.injEq _ _).mp h).symm; exact ⟨rfl, rfl⟩)

/-- An NFT transfer never touches the id counter or the cid registry. -/
theorem transferNFT_frame {env : Env} {fromA toA tokenId : Nat}
    {s s' : DataCoinState}
    (h : DataCoin.transferNFT env fromA toA tokenId s = .ok s') :
    s'.tokenIds = s.tokenIds ∧ s'.cidToTokenId = s.cidToTokenId := by
  simp only [DataCoin.transferNFT] at h
  repeat' (split at h)
  all_goals first
  | exact Except.noConfusion h
  | (obtain rfl := ((Except.ok.injEq _ _).mp h).symm; exact ⟨rfl, rfl⟩)

/-- Transferring DataCoin's ownership never touches the id counter or the
cid registry. -/
theorem dcTransferOwnership_frame {env : Env} {newOwner : Nat}
    {s s' : DataCoinState}
    (h : DataCoin.transferOwnership env newOwner s = .ok s') :
    s'.tokenIds = s.tokenIds ∧ s'.cidToTokenId = s.cidToTokenId := by
  simp only [DataCoin.transferOwnership] at h
  repeat' (split at h)
  all_goals first
  | exact Except.noConfusion h
  | (obtain rfl := ((Except.ok.injEq _ _).mp h).symm; exact ⟨rfl, rfl⟩)

/-- Shape of a successful `updatePlatformFee`: only the fee parameter
changes. -/
theorem updatePlatformFee_shape {env : Env} {newFeeBps : Nat} {w w' : World}
    (h : Marketplace.updatePlatformFee env newFeeBps w = .ok w') :
    ∃ fee, w' = { w with mp := { w.mp with platformFeeBps := fee } } := by
  simp only [Marketplace.updatePlatformFee] at h
  repeat' (split at h)
  all_goals first
  | exact Except.noConfusion h
  | (obtain rfl := ((Except.ok.injEq _ _).mp h).symm; exact ⟨_, rfl⟩)

/-- Shape of a successful `withdrawFees`: only currency balances change. -/
theorem withdrawFees_shape {env : Env} {toA amount : Nat} {w w' : World}
    (h : Marketplace.withdrawFees env toA amount w = .ok w') :
    ∃ u, w' = { w with usdc := u } := by
  simp only [Marketplace.withdrawFees] at h
  repeat' (split at h)
  all_goals first
  | exact Except.noConfusion h
  | (obtain rfl := ((Except.ok.injEq _ _).mp h).symm; exact ⟨_, rfl⟩)

/-- Shape of a successful marketplace `pause`/`unpause`. -/
theorem mkPause_shape {env : Env} {w w' : World}
    (h : Marketplace.pause env w = .ok w') :
    ∃ b, w' = { w with mp := { w.mp with paused := b } } := by
  simp only [Marketplace.pause] at h
  repeat' (split at h)
  all_goals first
  | exact Except.noConfusion h
  | (obtain rfl := ((Except.ok.injEq _ _).mp h).symm; exact ⟨_, rfl⟩)

/-- Shape of a successful marketplace `unpause`. -/
theorem mkUnpause_shape {env : Env} {w w' : World}
    (h : Marketplace.unpause env w = .ok w') :
    ∃ b, w' = { w with mp := { w.mp with paused := b } } := by
  simp only [Marketplace.unpause] at h
  repeat' (split at h)
  all_goals first
  | exact Except.noConfusion h
  | (obtain rfl := ((Except.ok.injEq _ _).mp h).symm; exact ⟨_, rfl⟩)

/-- Shape of a successful marketplace `emergencyRecover`. -/
theorem mkEmergency_shape {env : Env} {toA amount : Nat} {w w' : World}
    (h : Marketplace.emergencyRecover env toA amount w = .ok w') :
    ∃ u, w' = { w with usdc := u } := by
  simp only [Marketplace.emergencyRecover] at h
  repeat' (split at h)
  all_goals first
  | exact Except.noConfusion h
  | (obtain rfl := ((Except.ok.injEq _ _).mp h).symm; exact ⟨_, rfl⟩)

/-- Shape of a successful marketplace ownership transfer. -/
theorem mkTransferOwnership_shape {env : Env} {newOwner : Nat} {w w' : World}
    (h : Marketplace.transferOwnership env newOwner w = .ok w') :
    ∃ o2, w' = { w with mp := { w.mp with owner := o2 } } := by
  simp only [Marketplace.transferOwnership] at h
  repeat' (split at h)
  all_goals first
  | exact Except.noConfusion h
  | (obtain rfl := ((Except.ok.injEq _ _).mp h).symm; exact ⟨_, rfl⟩)

/-- Shape of a successful `updateChainSupport`: only the chain policy
changes. -/
theorem chainSupport_shape {env : Env} {chainId : Nat} {supported : Bool}
    {w w' : World}
    (h : Bridge.updateChainSupport env chainId supported w = .ok w') :
    ∃ f, w' = { w with br := { w.br with supportedChains := f } } := by
  simp only [Bridge.updateChainSupport] at h
  repeat' (split at h)
  all_goals first
  | exact Except.noConfusion h
  | (obtain rfl := ((Except.ok.injEq _ _).mp h).symm; exact ⟨_, rfl⟩)

/-- Shape of a successful bridge `pause`. -/
theorem brPause_shape {env : Env} {w w' : World}
    (h : Bridge.pause env w = .ok w') :
    ∃ b, w' = { w with br := { w.br with paused := b } } := by
  simp only [Bridge.pause] at h
  repeat' (split at h)
  all_goals first
  | exact Except.noConfusion h
  | (obtain rfl := ((Except.ok.injEq _ _).mp h).symm; exact ⟨_, rfl⟩)

/-- Shape of a successful bridge `unpause`. -/
theorem brUnpause_shape {env : Env} {w w' : World}
    (h : Bridge.unpause env w = .ok w') :
    ∃ b, w' = { w with br := { w.br with paused := b } } := by
  simp only [Bridge.unpause] at h
  repeat' (split at h)
  all_goals first
  | exact Except.noConfusion h
  | (obtain rfl := ((Except.ok.injEq _ _).mp h).symm; exact ⟨_, rfl⟩)

/-- Shape of a successful bridge `emergencyRecover`. -/
theorem brEmergency_shape {env : Env} {toA amount : Nat} {w w' : World}
    (h : Bridge.emergencyRecover env toA amount w = .ok w') :
    ∃ u, w' = { w with usdc := u } := by
  simp only [Bridge.emergencyRecover] at h
  repeat' (split at h)
  all_goals first
  | exact Except.noConfusion h
  | (obtain rfl := ((Except.ok.injEq _ _).mp h).symm; exact ⟨_, rfl⟩)

/-- Shape of a successful bridge ownership transfer. -/
theorem brTransferOwnership_shape {env : Env} {newOwner : Nat} {w w' : World}
    (h : Bridge.transferOwnership env newOwner w = .ok w') :
    ∃ o2, w' = { w with br := { w.br with owner := o2 } } := by
  simp only [Bridge.transferOwnership] at h
  repeat' (split at h)
  all_goals first
  | exact Except.noConfusion h
  | (obtain rfl := ((Except.ok.injEq _ _).mp h).symm; exact ⟨_, rfl⟩)

/-- Master footprint theorem, covering every transaction kind at once:
purchase records change only under a (possibly nested) `executePurchase`
deriving that very key; the executed/settled flags of an intent are
monotone except under a colliding `createIntent` overwrite; the verified
proof registry changes only under `verifyProof`; the dataset id counter
changes only under `mintDataset`, and only upward; a registered cid never
becomes unregistered. -/
theorem op_footprint (o : Op) (w : World) :
    (∀ k, writesPurchase o w k = false →
      (applyOp o w).mp.purchases k = w.mp.purchases k) ∧
    (∀ k, overwritesIntent o k = false →
      ((w.br.intents k).isExecuted = true →
        ((applyOp o w).br.intents k).isExecuted = true) ∧
      ((w.br.intents k).isSettled = true →
        ((applyOp o w).br.intents k).isSettled = true)) ∧
    (isVerifyProof o = false →
      (applyOp o w).br.verifiedProofs = w.br.verifiedProofs) ∧
    (isMint o = false → (applyOp o w).dc.tokenIds = w.dc.tokenIds) ∧
    w.dc.tokenIds ≤ (applyOp o w).dc.tokenIds ∧
    (∀ c, w.dc.cidToTokenId c ≠ 0 → (applyOp o w).dc.cidToTokenId c ≠ 0) := by
  cases o with
  | mintDataset env toA cid name description price accessPolicy maxSupply =>
    rcases hE : DataCoin.mintDataset env toA cid name description price
        accessPolicy maxSupply w.dc with e | ⟨tid, dc2⟩
    · simp [applyOp, exec, hE]
    · obtain ⟨m1, m2, m3, m4, m5, m6, m7, m8, m9, m10, m11, m12, m13, m14⟩ :=
        mintDataset_ok hE
      simp only [applyOp, exec, hE]
      refine ⟨fun k _ => by trivial, fun k _ => ⟨fun hx => hx, fun hx => hx⟩, fun _ => by trivial,
        by simp [isMint], by omega, fun c hc => ?_⟩
      by_cases hcc : c = cid
      · subst hcc; simp [m10]
      · rw [m9 c hcc]; exact hc
  | updateDataset env tokenId newPrice newAccessPolicy =>
    rcases hE : DataCoin.updateDataset env tokenId newPrice newAccessPolicy w.dc
        with e | dc'
    · simp [applyOp, exec, hE]
    · obtain ⟨f1, f2⟩ := updateDataset_frame hE
      simp only [applyOp, exec, hE]
      exact ⟨fun k _ => by trivial, fun k _ => ⟨fun hx => hx, fun hx => hx⟩, fun _ => by trivial,
        fun _ => f1, by simp [f1], fun c hc => by simp [f2]; exact hc⟩
  | deactivateDataset env tokenId =>
    rcases hE : DataCoin.deactivateDataset env tokenId w.dc with e | dc'
    · simp [applyOp, exec, hE]
    · obtain ⟨f1, f2⟩ := deactivateDataset_frame hE
      simp only [applyOp, exec, hE]
      exact ⟨fun k _ => by trivial, fun k _ => ⟨fun hx => hx, fun hx => hx⟩, fun _ => by trivial,
        fun _ => f1, by simp [f1], fun c hc => by simp [f2]; exact hc⟩
  | grantAccess env tokenId buyer amount =>
    rcases hE : DataCoin.grantAccess env tokenId buyer amount w.dc with e | dc'
    · simp [applyOp, exec, hE]
    · obtain ⟨g1, g2, _, _, _, _⟩ := grantAccess_ok hE
      simp only [applyOp, exec, hE]
      exact ⟨fun k _ => by trivial, fun k _ => ⟨fun hx => hx, fun hx => hx⟩, fun _ => by trivial,
        fun _ => g1, by simp [g1], fun c hc => by simp [g2]; exact hc⟩
  | transferNFT env fromA toA tokenId =>
    rcases hE : DataCoin.transferNFT env fromA toA tokenId w.dc with e | dc'
    · simp [applyOp, exec, hE]
    · obtain ⟨f1, f2⟩ := transferNFT_frame hE
      simp only [applyOp, exec, hE]
      exact ⟨fun k _ => by trivial, fun k _ => ⟨fun hx => hx, fun hx => hx⟩, fun _ => by trivial,
        fun _ => f1, by simp [f1], fun c hc => by simp [f2]; exact hc⟩
  | transferOwnershipDC env newOwner =>
    rcases hE : DataCoin.transferOwnership env newOwner w.dc with e | dc'
    · simp [applyOp, exec, hE]
    · obtain ⟨f1, f2⟩ := dcTransferOwnership_frame hE
      simp only [applyOp, exec, hE]
      exact ⟨fun k _ => by trivial, fun k _ => ⟨fun hx => hx, fun hx => hx⟩, fun _ => by trivial,
        fun _ => f1, by simp [f1], fun c hc => by simp [f2]; exact hc⟩
  | executePurchase env tokenId amount accessToken =>
    rcases hE : Marketplace.executePurchase env tokenId amount accessToken w
        with e | ⟨out, w2⟩
    · simp [applyOp, exec, hE]
    · obtain ⟨e1, e2, e3, e4, e5, e6, e7, e8, e9, e10, e11, e12, e13, e14, e15,
        e16, e17, e18, e19, e20, e21, e22⟩ := executePurchase_ok hE
      simp only [applyOp, exec, hE]
      refine ⟨fun k hk => ?_, fun k _ => ?_, fun _ => by rw [e2], fun _ => e10,
        by simp [e10], fun c hc => by simp [e11]; exact hc⟩
      · refine e8 k ?_
        rw [e1]
        exact Ne.symm (by simpa [writesPurchase] using hk)
      · rw [e2]; exact ⟨fun hx => hx, fun hx => hx⟩
  | updatePlatformFee env newFeeBps =>
    rcases hE : Marketplace.updatePlatformFee env newFeeBps w with e | w'
    · simp [applyOp, exec, hE]
    · obtain ⟨fee, rfl⟩ := updatePlatformFee_shape hE
      simp [applyOp, exec, hE]
  | withdrawFees env toA amount =>
    rcases hE : Marketplace.withdrawFees env toA amount w with e | w'
    · simp [applyOp, exec, hE]
    · obtain ⟨u, rfl⟩ := withdrawFees_shape hE
      simp [applyOp, exec, hE]
  | pauseMarket env =>
    rcases hE : Marketplace.pause env w with e | w'
    · simp [applyOp, exec, hE]
    · obtain ⟨b, rfl⟩ := mkPause_shape hE
      simp [applyOp, exec, hE]
  | unpauseMarket env =>
    rcases hE : Marketplace.unpause env w with e | w'
    · simp [applyOp, exec, hE]
    · obtain ⟨b, rfl⟩ := mkUnpause_shape hE
      simp [applyOp, exec, hE]
  | emergencyRecoverMarket env toA amount =>
    rcases hE : Marketplace.emergencyRecover env toA amount w with e | w'
    · simp [applyOp, exec, hE]
    · obtain ⟨u, rfl⟩ := mkEmergency_shape hE
      simp [applyOp, exec, hE]
  | transferOwnershipMarket env newOwner =>
    rcases hE : Marketplace.transferOwnership env newOwner w with e | w'
    · simp [applyOp, exec, hE]
    · obtain ⟨o2, rfl⟩ := mkTransferOwnership_shape hE
      simp [applyOp, exec, hE]
  | createIntent env tokenId amount sourceChainId destinationChainId =>
    rcases hE : Bridge.createIntent env tokenId amount sourceChainId
        destinationChainId w with e | ⟨iid2, w2⟩
    · simp [applyOp, exec, hE]
    · obtain ⟨c1, c2, c3, c4, c5, c6, c7, c8, c9, c10, c11, c12, c13, c14, c15,
        c16, c17, c18⟩ := createIntent_ok hE
      simp only [applyOp, exec, hE]
      refine ⟨fun k _ => by rw [c9], fun k hk => ?_, fun _ => c14, fun _ => by rw [c8],
        by rw [c8], fun c hc => by rw [c8]; exact hc⟩
      have hk' : k ≠ iid2 := by
        rw [c1]
        exact Ne.symm (by simpa [overwritesIntent] using hk)
      rw [c17 k hk']
      exact ⟨fun hx => hx, fun hx => hx⟩
  | executeIntent env intentId proofHash accessToken =>
    rcases hE : Bridge.executeIntent env intentId proofHash accessToken w
        with e | w'
    · simp [applyOp, exec, hE]
    · obtain ⟨x1, x2, x3, x4, x5, x6, x7, x8, x9, x10, x11, x12, x13, x14, x15,
        x16, x17, x18, x19, x20⟩ := executeIntent_ok hE
      simp only [applyOp, exec, hE]
      refine ⟨fun k hk => x18 k (Ne.symm (by simpa [writesPurchase] using hk)),
        fun k _ => ?_, fun _ => x6, fun _ => x11, by rw [x11], fun c hc => by rw [x12]; exact hc⟩
      by_cases hki : k = intentId
      · subst hki
        rw [x10]
        exact ⟨fun _ => by trivial, fun hx => by simp_all⟩
      · rw [x9 k hki]
        exact ⟨fun hx => hx, fun hx => hx⟩
  | settleIntent env intentId proofHash =>
    rcases hE : Bridge.settleIntent env intentId proofHash w with e | w'
    · simp [applyOp, exec, hE]
    · obtain ⟨s1, s2, s3, s4, s5, s6, s7, s8, s9, s10, s11, s12, s13, s14, s15,
        s16⟩ := settleIntent_ok hE
      simp only [applyOp, exec, hE]
      refine ⟨fun k _ => by rw [s7], fun k _ => ?_, fun _ => s12, fun _ => by rw [s6],
        by rw [s6], fun c hc => by rw [s6]; exact hc⟩
      by_cases hki : k = intentId
      · subst hki
        rw [s16]
        exact ⟨fun _ => s3, fun hx => by simp_all⟩
      · rw [s15 k hki]
        exact ⟨fun hx => hx, fun hx => hx⟩
  | verifyProof env proofHash isValid =>
    rcases hE : Bridge.verifyProof env proofHash isValid w with e | w'
    · simp [applyOp, exec, hE]
    · obtain ⟨v1, v2, v3, v4, v5, v6, v7, v8, v9, v10, v11, v12⟩ :=
        verifyProof_ok hE
      simp only [applyOp, exec, hE]
      exact ⟨fun k _ => by rw [v3], fun k _ => by rw [v8]; exact ⟨fun hx => hx, fun hx => hx⟩,
        by simp [isVerifyProof], fun _ => by rw [v2], by rw [v2], fun c hc => by rw [v2]; exact hc⟩
  | updateChainSupport env chainId supported =>
    rcases hE : Bridge.updateChainSupport env chainId supported w with e | w'
    · simp [applyOp, exec, hE]
    · obtain ⟨f, rfl⟩ := chainSupport_shape hE
      simp [applyOp, exec, hE]
  | pauseBridge env =>
    rcases hE : Bridge.pause env w with e | w'
    · simp [applyOp, exec, hE]
    · obtain ⟨b, rfl⟩ := brPause_shape hE
      simp [applyOp, exec, hE]
  | unpauseBridge env =>
    rcases hE : Bridge.unpause env w with e | w'
    · simp [applyOp, exec, hE]
    · obtain ⟨b, rfl⟩ := brUnpause_shape hE
      simp [applyOp, exec, hE]
  | emergencyRecoverBridge env toA amount =>
    rcases hE : Bridge.emergencyRecover env toA amount w with e | w'
    · simp [applyOp, exec, hE]
    · obtain ⟨u, rfl⟩ := brEmergency_shape hE
      simp [applyOp, exec, hE]
  | transferOwnershipBridge env newOwner =>
    rcases hE : Bridge.transferOwnership env newOwner w with e | w'
    · simp [applyOp, exec, hE]
    · obtain ⟨o2, rfl⟩ := brTransferOwnership_shape hE
      simp [applyOp, exec, hE]
  | usdcTransfer env toA amount =>
    rcases hE : ERC20.transfer env.sender toA amount w.usdc with e | u
    · simp [applyOp, exec, hE]
    · simp [applyOp, exec, hE]
  | usdcTransferFrom env fromA toA amount =>
    rcases hE : ERC20.transferFrom env.sender fromA toA amount w.usdc with e | u
    · simp [applyOp, exec, hE]
    · simp [applyOp, exec, hE]
  | usdcApprove env spender amount =>
    rcases hE : ERC20.approve env spender amount w.usdc with e | u
    · simp [applyOp, exec, hE]
    · simp [applyOp, exec, hE]


/-- The successful mint ids of any transaction sequence are the consecutive
integers starting just above the current `_tokenIds` counter. -/
theorem traceMintIds_range (ops : List Op) : ∀ w : World,
    traceMintIds w ops =
      List.range' (w.dc.tokenIds + 1) (traceMintIds w ops).length := by
  induction ops with
  | nil => intro w; simp [traceMintIds]
  | cons o rest ih =>
    intro w
    have hstep : ∀ (o : Op) (w : World), isMint o = false →
        (applyOp o w).dc.tokenIds = w.dc.tokenIds :=
      fun o w h => (op_footprint o w).2.2.2.1 h
    cases o with
    | mintDataset env toA cid name description price accessPolicy maxSupply =>
      rcases hE : DataCoin.mintDataset env toA cid name description price
          accessPolicy maxSupply w.dc with e | ⟨tid, dc'⟩
      · simp only [traceMintIds, hE]
        exact ih w
      · obtain ⟨m1, m2, _⟩ := mintDataset_ok hE
        simp only [traceMintIds, hE]
        rw [ih { w with dc := dc' }]
        simp only [List.length_cons, List.length_range']
        rw [List.range'_succ]
        rw [m1, m2]
    | updateDataset env tokenId newPrice newAccessPolicy =>
      simp only [traceMintIds]
      rw [ih, hstep (Op.updateDataset env tokenId newPrice newAccessPolicy) w rfl]
      simp
    | deactivateDataset env tokenId =>
      simp only [traceMintIds]
      rw [ih, hstep (Op.deactivateDataset env tokenId) w rfl]
      simp
    | grantAccess env tokenId buyer amount =>
      simp only [traceMintIds]
      rw [ih, hstep (Op.grantAccess env tokenId buyer amount) w rfl]
      simp
    | transferNFT env fromA toA tokenId =>
      simp only [traceMintIds]
      rw [ih, hstep (Op.transferNFT env fromA toA tokenId) w rfl]
      simp
    | transferOwnershipDC env newOwner =>
      simp only [traceMintIds]
      rw [ih, hstep (Op.transferOwnershipDC env newOwner) w rfl]
      simp
    | executePurchase env tokenId amount accessToken =>
      simp only [traceMintIds]
      rw [ih, hstep (Op.executePurchase env tokenId amount accessToken) w rfl]
      simp
    | updatePlatformFee env newFeeBps =>
      simp only [traceMintIds]
      rw [ih, hstep (Op.updatePlatformFee env newFeeBps) w rfl]
      simp
    | withdrawFees env toA amount =>
      simp only [traceMintIds]
      rw [ih, hstep (Op.withdrawFees env toA amount) w rfl]
      simp
    | pauseMarket env =>
      simp only [traceMintIds]
      rw [ih, hstep (Op.pauseMarket env) w rfl]
      simp
    | unpauseMarket env =>
      simp only [traceMintIds]
      rw [ih, hstep (Op.unpauseMarket env) w rfl]
      simp
    | emergencyRecoverMarket env toA amount =>
      simp only [traceMintIds]
      rw [ih, hstep (Op.emergencyRecoverMarket env toA amount) w rfl]
      simp
    | transferOwnershipMarket env newOwner =>
      simp only [traceMintIds]
      rw [ih, hstep (Op.transferOwnershipMarket env newOwner) w rfl]
      simp
    | createIntent env tokenId amount sourceChainId destinationChainId =>
      simp only [traceMintIds]
      rw [ih, hstep (Op.createIntent env tokenId amount sourceChainId destinationChainId) w rfl]
      simp
    | executeIntent env intentId proofHash accessToken =>
      simp only [traceMintIds]
      rw [ih, hstep (Op.executeIntent env intentId proofHash accessToken) w rfl]
      simp
    | settleIntent env intentId proofHash =>
      simp only [traceMintIds]
      rw [ih, hstep (Op.settleIntent env intentId proofHash) w rfl]
      simp
    | verifyProof env proofHash isValid =>
      simp only [traceMintIds]
      rw [ih, hstep (Op.verifyProof env proofHash isValid) w rfl]
      simp
    | updateChainSupport env chainId supported =>
      simp only [traceMintIds]
      rw [ih, hstep (Op.updateChainSupport env chainId supported) w rfl]
      simp
    | pauseBridge env =>
      simp only [traceMintIds]
      rw [ih, hstep (Op.pauseBridge env) w rfl]
      simp
    | unpauseBridge env =>
      simp only [traceMintIds]
      rw [ih, hstep (Op.unpauseBridge env) w rfl]
      simp
    | emergencyRecoverBridge env toA amount =>
      simp only [traceMintIds]
      rw [ih, hstep (Op.emergencyRecoverBridge env toA amount) w rfl]
      simp
    | transferOwnershipBridge env newOwner =>
      simp only [traceMintIds]
      rw [ih, hstep (Op.transferOwnershipBridge env newOwner) w rfl]
      simp
    | usdcTransfer env toA amount =>
      simp only [traceMintIds]
      rw [ih, hstep (Op.usdcTransfer env toA amount) w rfl]
      simp
    | usdcTransferFrom env fromA toA amount =>
      simp only [traceMintIds]
      rw [ih, hstep (Op.usdcTransferFrom env fromA toA amount) w rfl]
      simp
    | usdcApprove env spender amount =>
      simp only [traceMintIds]
      rw [ih, hstep (Op.usdcApprove env spender amount) w rfl]
      simp

/-! ## The claims -/

/-- Claim C1: for every successful `executePurchase` with dataset unit price
`p`, quantity `q` and fee parameter `feeBps ≤ 1000`: `totalCost = p * q`,
`platformFee = totalCost * feeBps / 10000` (floor division),
`creatorRevenue = totalCost - platformFee`, and
`platformFee + creatorRevenue = totalCost`; moreover, in the concrete
scenario with the default `feeBps = 250`, price 1000000 and quantity 1, the
creator receives 975000, the marketplace retains 25000, and the buyer goes
from 10000000 to 9000000 (`c1check`). -/
theorem claim1_fee_split (env : Env) (tokenId amount : Nat) (tok : String)
    (w : World) (out : PurchaseOut) (w' : World)
    (hok : Marketplace.executePurchase env tokenId amount tok w = .ok (out, w'))
    (hfee : w.mp.platformFeeBps ≤ 1000) :
    out.totalCost = (w.dc.datasets tokenId).price * amount ∧
    out.platformFee = out.totalCost * w.mp.platformFeeBps / 10000 ∧
    out.creatorRevenue = out.totalCost - out.platformFee ∧
    out.platformFee + out.creatorRevenue = out.totalCost ∧
    c1check = true := by
  obtain ⟨_, _, _, _, _, _, _, _, _, _, _, _, _, _, _, e16, e17, e18, e19, _, _, _⟩ :=
    executePurchase_ok hok
  exact ⟨e16, e17, e18, by omega, by decide⟩

/-- Witness for C1 at the concrete scenario state. -/
theorem claim1_fee_split_witness :
    c1Run.1.totalCost = (c1World.dc.datasets 1).price * 1 ∧
    c1Run.1.platformFee = c1Run.1.totalCost * c1World.mp.platformFeeBps / 10000 ∧
    c1Run.1.creatorRevenue = c1Run.1.totalCost - c1Run.1.platformFee ∧
    c1Run.1.platformFee + c1Run.1.creatorRevenue = c1Run.1.totalCost ∧
    c1check = true :=
  claim1_fee_split c1Env 1 1 tokA c1World c1Run.1 c1Run.2 (by rfl) (by decide)

/-- Claim C2 counterexample: the claim "no operation ever resets executed or
settled from true back to false" is false on the code: a `createIntent` by
the same buyer with the same parameters in the same block derives the same
intentId and overwrites the executed and settled intent, resetting both
flags (`c2check` runs it on an explicit state). -/
theorem claim2_counterexample : c2check = true := by decide

/-- Claim C2 (amended): the per-intent state machine is monotonic and
skip-free — `settleIntent` fails with `IntentNotExecuted` on an existing
unexecuted intent and with `IntentNotFound` on an absent one, a second
`executeIntent` fails with `IntentAlreadyExecuted`, a second `settleIntent`
fails with `IntentAlreadyExecuted` — and no operation resets `executed` or
`settled` from true to false, except a `createIntent` whose derived
intentId collides with that intent's key (same buyer, token, amount,
chains, timestamp and block number), which overwrites the intent. -/
theorem claim2_state_machine :
    (∀ (env : Env) (intentId proofHash : Bytes32) (w : World),
      env.sender = w.br.owner → (w.br.intents intentId).buyer ≠ 0 →
      (w.br.intents intentId).isExecuted = false →
      Bridge.settleIntent env intentId proofHash w = .error .intentNotExecuted) ∧
    (∀ (env : Env) (intentId proofHash : Bytes32) (w : World),
      env.sender = w.br.owner → (w.br.intents intentId).buyer = 0 →
      Bridge.settleIntent env intentId proofHash w = .error .intentNotFound) ∧
    (∀ (env : Env) (intentId proofHash : Bytes32) (tok : String) (w : World),
      env.sender = w.br.owner → (w.br.intents intentId).buyer ≠ 0 →
      (w.br.intents intentId).isExecuted = true →
      Bridge.executeIntent env intentId proofHash tok w
        = .error .intentAlreadyExecuted) ∧
    (∀ (env : Env) (intentId proofHash : Bytes32) (w : World),
      env.sender = w.br.owner → (w.br.intents intentId).buyer ≠ 0 →
      (w.br.intents intentId).isExecuted = true →
      (w.br.intents intentId).isSettled = true →
      Bridge.settleIntent env intentId proofHash w
        = .error .intentAlreadyExecuted) ∧
    (∀ (o : Op) (w : World) (k : Bytes32), overwritesIntent o k = false →
      ((w.br.intents k).isExecuted = true →
        ((applyOp o w).br.intents k).isExecuted = true) ∧
      ((w.br.intents k).isSettled = true →
        ((applyOp o w).br.intents k).isSettled = true)) :=
  ⟨fun _ _ _ _ h1 h2 h3 => settleIntent_notExecuted h1 h2 h3,
   fun _ _ _ _ h1 h2 => settleIntent_notFound h1 h2,
   fun _ _ _ _ _ h1 h2 h3 => executeIntent_already h1 h2 h3,
   fun _ _ _ _ h1 h2 h3 h4 => settleIntent_already h1 h2 h3 h4,
   fun o w k h => (op_footprint o w).2.1 k h⟩

/-- Witness for C2 (amended): settling the pending intent of `c3World`
fails with `IntentNotExecuted`. -/
theorem claim2_state_machine_witness :
    Bridge.settleIntent ⟨1, 100, 5⟩ (Bytes32.raw 3) (Bytes32.raw 7) c3World
      = .error .intentNotExecuted :=
  claim2_state_machine.1 ⟨1, 100, 5⟩ (Bytes32.raw 3) (Bytes32.raw 7) c3World
    (by decide) (by decide) (by decide)

/-- Claim C3: `executeIntent` is atomic across the two ledgers — whenever
the nested `executePurchase` fails (for any reason), the whole
`executeIntent` transaction fails with that error and the state is exactly
the pre-state: `executed` stays false, `executedAt` and `accessToken` are
unchanged, and no write of the call survives. -/
theorem claim3_atomicity (env : Env) (intentId proofHash : Bytes32)
    (tok : String) (w : World) (e : Err)
    (hownr : env.sender = w.br.owner)
    (hbuy : (w.br.intents intentId).buyer ≠ 0)
    (hexec : (w.br.intents intentId).isExecuted = false)
    (hproof : w.br.verifiedProofs proofHash = true)
    (hsub : Marketplace.executePurchase ⟨w.bridgeAddr, env.ts, env.bn⟩
      (w.br.intents intentId).tokenId (w.br.intents intentId).amount tok w
      = .error e) :
    Bridge.executeIntent env intentId proofHash tok w = .error e ∧
    applyOp (.executeIntent env intentId proofHash tok) w = w := by
  have hfail := executeIntent_subfail hownr hbuy hexec hproof hsub
  exact ⟨hfail, applyOp_error (by simpa [exec] using hfail)⟩

/-- Witness for C3: in `c3World` the marketplace is paused, so the nested
purchase fails and `executeIntent` leaves the state untouched. -/
theorem claim3_atomicity_witness :
    Bridge.executeIntent ⟨1, 100, 5⟩ (Bytes32.raw 3) (Bytes32.raw 7) tokA c3World
      = .error .pausedErr ∧
    applyOp (.executeIntent ⟨1, 100, 5⟩ (Bytes32.raw 3) (Bytes32.raw 7) tokA)
      c3World = c3World :=
  claim3_atomicity ⟨1, 100, 5⟩ (Bytes32.raw 3) (Bytes32.raw 7) tokA c3World
    .pausedErr (by decide) (by decide) (by decide) (by decide) (by rfl)

/-- Claim C4: `verifyAccessToken` reverts with `PurchaseNotFound` whenever
the record is absent or inactive (an absent key yields the zero record,
whose `isActive` is false); on an active record it returns `false` — not an
error — when the token differs from the stored one or when
`now > timestamp + 86400`, and it returns `true` for the exactly issued
token at any `now ≤ timestamp + 86400`. -/
theorem claim4_verifyAccessToken (env : Env) (purchaseId : Bytes32)
    (tok : String) (w : World) :
    ((w.mp.purchases purchaseId).isActive = false →
      Marketplace.verifyAccessToken env purchaseId tok w
        = .error .purchaseNotFound) ∧
    ((w.mp.purchases purchaseId).isActive = true →
      (w.mp.purchases purchaseId).accessToken ≠ tok →
      Marketplace.verifyAccessToken env purchaseId tok w = .ok false) ∧
    ((w.mp.purchases purchaseId).isActive = true →
      (w.mp.purchases purchaseId).timestamp + 86400 < env.ts →
      Marketplace.verifyAccessToken env purchaseId tok w = .ok false) ∧
    ((w.mp.purchases purchaseId).isActive = true →
      (w.mp.purchases purchaseId).accessToken = tok →
      env.ts ≤ (w.mp.purchases purchaseId).timestamp + 86400 →
      Marketplace.verifyAccessToken env purchaseId tok w = .ok true) := by
  refine ⟨fun h1 => ?_, fun h1 h2 => ?_, fun h1 h2 => ?_, fun h1 h2 h3 => ?_⟩
  · simp [Marketplace.verifyAccessToken, h1]
  · simp [Marketplace.verifyAccessToken, h1, h2]
  · by_cases htk : (w.mp.purchases purchaseId).accessToken = tok
    · simp [Marketplace.verifyAccessToken, h1, htk, h2]
    · simp [Marketplace.verifyAccessToken, h1, htk]
  · simp [Marketplace.verifyAccessToken, h1, h2, Nat.not_lt.mpr h3]

/-- Witness for C4: the exactly issued token of the `c4World` record
verifies as `true` before expiry. -/
theorem claim4_verifyAccessToken_witness :
    Marketplace.verifyAccessToken ⟨0, 100, 0⟩ (Bytes32.raw 1) tokA c4World
      = .ok true :=
  (claim4_verifyAccessToken ⟨0, 100, 0⟩ (Bytes32.raw 1) tokA c4World).2.2.2
    (by decide) (by decide) (by decide)

/-- Claim C5: over any transaction sequence from the deployed state, the ids
returned by the successful mints are exactly 1, 2, 3, ... in order; a
successful mint makes `cidExists` true for its content id and is assigned
`_tokenIds + 1`; a registered cid never becomes unregistered under any
operation; a mint reusing a registered cid fails with the duplicate error;
and mints with an empty cid or name fail with the empty-field errors, and
with a zero price fail with the invalid-price error. -/
theorem claim5_mint :
    (∀ (deployer marketA bridgeA : Nat) (bal : Nat → Nat) (ops : List Op),
      traceMintIds (initWorld deployer marketA bridgeA bal) ops =
        List.range' 1
          (traceMintIds (initWorld deployer marketA bridgeA bal) ops).length) ∧
    (∀ (env : Env) (toA : Nat) (cid name description : String) (price : Nat)
        (accessPolicy : String) (maxSupply : Nat) (s : DataCoinState)
        (tid : Nat) (s' : DataCoinState),
      DataCoin.mintDataset env toA cid name description price accessPolicy
        maxSupply s = .ok (tid, s') →
      tid = s.tokenIds + 1 ∧ DataCoin.cidExists s' cid = true) ∧
    (∀ (o : Op) (w : World) (c : String),
      DataCoin.cidExists w.dc c = true →
      DataCoin.cidExists (applyOp o w).dc c = true) ∧
    (∀ (env : Env) (toA : Nat) (cid name description : String) (price : Nat)
        (accessPolicy : String) (maxSupply : Nat) (s : DataCoinState),
      env.sender = s.owner → cid ≠ "" → name ≠ "" → price ≠ 0 →
      s.cidToTokenId cid ≠ 0 →
      DataCoin.mintDataset env toA cid name description price accessPolicy
        maxSupply s = .error .duplicateCID) ∧
    (∀ (env : Env) (toA : Nat) (cid name description : String) (price : Nat)
        (accessPolicy : String) (maxSupply : Nat) (s : DataCoinState),
      env.sender = s.owner →
      (cid = "" →
        DataCoin.mintDataset env toA cid name description price accessPolicy
          maxSupply s = .error .emptyCID) ∧
      (cid ≠ "" → name = "" →
        DataCoin.mintDataset env toA cid name description price accessPolicy
          maxSupply s = .error .emptyName) ∧
      (cid ≠ "" → name ≠ "" → price = 0 →
        DataCoin.mintDataset env toA cid name description price accessPolicy
          maxSupply s = .error .invalidPrice)) := by
  refine ⟨?_, ?_, ?_, ?_, ?_⟩
  · intro deployer marketA bridgeA bal ops
    have h := traceMintIds_range ops (initWorld deployer marketA bridgeA bal)
    simpa [initWorld] using h
  · intro env toA cid name description price accessPolicy maxSupply s tid s' h
    obtain ⟨m1, _, _, _, _, _, _, _, _, m10, _⟩ := mintDataset_ok h
    exact ⟨m1, by simp [DataCoin.cidExists, m10]⟩
  · intro o w c hc
    have := (op_footprint o w).2.2.2.2.2 c (by simpa [DataCoin.cidExists] using hc)
    simpa [DataCoin.cidExists] using this
  · intro env toA cid name description price accessPolicy maxSupply s
      h1 h2 h3 h4 h5
    simp [DataCoin.mintDataset, h1, h2, h3, h4, h5]
  · intro env toA cid name description price accessPolicy maxSupply s h1
    refine ⟨fun hc => ?_, fun hc hn => ?_, fun hc hn hp => ?_⟩
    · simp [DataCoin.mintDataset, h1, hc]
    · simp [DataCoin.mintDataset, h1, hc, hn]
    · simp [DataCoin.mintDataset, h1, hc, hn, hp]

/-- Witness for C5: reusing the registered cid of `demoWorld` fails with the
duplicate error (and the two-mint trace from the deployed state returns
ids 1, 2). -/
theorem claim5_mint_witness :
    DataCoin.mintDataset ⟨10, 0, 0⟩ 2 demoCid demoName "" 5 "" 0
      (demoWorld 5 0 0 0).dc = .error .duplicateCID ∧
    traceMintIds c5Init c5Ops =
      List.range' 1 (traceMintIds c5Init c5Ops).length :=
  ⟨claim5_mint.2.2.2.1 ⟨10, 0, 0⟩ 2 demoCid demoName "" 5 "" 0
      (demoWorld 5 0 0 0).dc (by decide) (by decide) (by decide) (by decide)
      (by decide),
   claim5_mint.1 1 10 11 (fun _ => 0) c5Ops⟩

/-- Claim C6: with the marketplace unpaused and the token existent,
`executePurchase` fails with `DatasetNotActive` when the dataset is
inactive, with `InsufficientPayment` when `totalCost = price * quantity`
is zero, and with `InsufficientPayment` when the buyer's balance is below
`totalCost`; in each case the transaction leaves the state unchanged. -/
theorem claim6_purchase_guards (env : Env) (tokenId amount : Nat)
    (tok : String) (w : World)
    (hp : w.mp.paused = false) (hex : w.dc.owners tokenId ≠ 0) :
    ((w.dc.datasets tokenId).isActive = false →
      Marketplace.executePurchase env tokenId amount tok w
        = .error .datasetNotActive ∧
      applyOp (.executePurchase env tokenId amount tok) w = w) ∧
    ((w.dc.datasets tokenId).isActive = true →
      (w.dc.datasets tokenId).price * amount = 0 →
      Marketplace.executePurchase env tokenId amount tok w
        = .error .insufficientPayment ∧
      applyOp (.executePurchase env tokenId amount tok) w = w) ∧
    ((w.dc.datasets tokenId).isActive = true →
      0 < (w.dc.datasets tokenId).price * amount →
      (w.dc.datasets tokenId).price * amount < two256 →
      w.usdc.balances env.sender < (w.dc.datasets tokenId).price * amount →
      Marketplace.executePurchase env tokenId amount tok w
        = .error .insufficientPayment ∧
      applyOp (.executePurchase env tokenId amount tok) w = w) := by
  refine ⟨fun ha => ?_, fun ha h0 => ?_, fun ha hpos hov hbal => ?_⟩
  · have hfail : Marketplace.executePurchase env tokenId amount tok w
        = .error .datasetNotActive := by
      simp [Marketplace.executePurchase, DataCoin.getDatasetInfo, hp, hex, ha]
    refine ⟨hfail, @applyOp_error (.executePurchase env tokenId amount tok) w
      .datasetNotActive (by simp [exec, hfail])⟩
  · have hfail : Marketplace.executePurchase env tokenId amount tok w
        = .error .insufficientPayment := by
      simp [Marketplace.executePurchase, DataCoin.getDatasetInfo, hp, hex, ha,
        h0, two256]
    refine ⟨hfail, @applyOp_error (.executePurchase env tokenId amount tok) w
      .insufficientPayment (by simp [exec, hfail])⟩
  · have hfail : Marketplace.executePurchase env tokenId amount tok w
        = .error .insufficientPayment := by
      simp [Marketplace.executePurchase, DataCoin.getDatasetInfo, hp, hex, ha,
        Nat.not_le.mpr hov, Nat.pos_iff_ne_zero.mp hpos, hbal]
    refine ⟨hfail, @applyOp_error (.executePurchase env tokenId amount tok) w
      .insufficientPayment (by simp [exec, hfail])⟩

/-- Witness for C6: purchasing the deactivated dataset of `c6World` fails
with `DatasetNotActive` and changes nothing. -/
theorem claim6_purchase_guards_witness :
    Marketplace.executePurchase c1Env 1 1 tokA c6World
      = .error .datasetNotActive ∧
    applyOp (.executePurchase c1Env 1 1 tokA) c6World = c6World :=
  (claim6_purchase_guards c1Env 1 1 tokA c6World (by decide) (by decide)).1
    (by decide)

/-- Claim C7: at initialization exactly the chains 1, 137, 42161, 10 and
8453 are supported and 999 is not; `createIntent` fails with
`UnsupportedChain` whenever either chain is unsupported, with
`InvalidAmount` when the quantity is zero, and with `DatasetInactive` when
the dataset is inactive; a successful `createIntent` records the intent
with `executed = false` and `settled = false`. -/
theorem claim7_createIntent :
    (∀ (deployer marketA bridgeA : Nat) (bal : Nat → Nat),
      (initWorld deployer marketA bridgeA bal).br.supportedChains 1 = true ∧
      (initWorld deployer marketA bridgeA bal).br.supportedChains 137 = true ∧
      (initWorld deployer marketA bridgeA bal).br.supportedChains 42161 = true ∧
      (initWorld deployer marketA bridgeA bal).br.supportedChains 10 = true ∧
      (initWorld deployer marketA bridgeA bal).br.supportedChains 8453 = true ∧
      (initWorld deployer marketA bridgeA bal).br.supportedChains 999 = false) ∧
    (∀ (env : Env) (tokenId amount sourceChainId destinationChainId : Nat)
        (w : World),
      w.br.paused = false →
      (w.br.supportedChains sourceChainId = false ∨
        w.br.supportedChains destinationChainId = false) →
      Bridge.createIntent env tokenId amount sourceChainId destinationChainId w
        = .error .unsupportedChain) ∧
    (∀ (env : Env) (tokenId amount sourceChainId destinationChainId : Nat)
        (w : World),
      w.br.paused = false →
      w.br.supportedChains sourceChainId = true →
      w.br.supportedChains destinationChainId = true →
      amount = 0 →
      Bridge.createIntent env tokenId amount sourceChainId destinationChainId w
        = .error .invalidAmount) ∧
    (∀ (env : Env) (tokenId amount sourceChainId destinationChainId : Nat)
        (w : World),
      w.br.paused = false →
      w.br.supportedChains sourceChainId = true →
      w.br.supportedChains destinationChainId = true →
      amount ≠ 0 →
      w.dc.owners tokenId ≠ 0 →
      (w.dc.datasets tokenId).isActive = false →
      Bridge.createIntent env tokenId amount sourceChainId destinationChainId w
        = .error .datasetNotActive) ∧
    (∀ (env : Env) (tokenId amount sourceChainId destinationChainId : Nat)
        (w : World) (iid : Bytes32) (w' : World),
      Bridge.createIntent env tokenId amount sourceChainId destinationChainId w
        = .ok (iid, w') →
      (w'.br.intents iid).isExecuted = false ∧
      (w'.br.intents iid).isSettled = false) := by
  refine ⟨?_, ?_, ?_, ?_, ?_⟩
  · intro deployer marketA bridgeA bal
    refine ⟨by simp [initWorld], by simp [initWorld], by simp [initWorld],
      by simp [initWorld], by simp [initWorld], by simp [initWorld]⟩
  · intro env tokenId amount sourceChainId destinationChainId w hpz hun
    by_cases hsrc : w.br.supportedChains sourceChainId = false
    · simp [Bridge.createIntent, hpz, hsrc]
    · have hdst : w.br.supportedChains destinationChainId = false := by
        rcases hun with h | h
        · exact absurd h hsrc
        · exact h
      have hsrc2 : w.br.supportedChains sourceChainId = true := by
        simpa using hsrc
      simp [Bridge.createIntent, hpz, hdst, hsrc2]
  · intro env tokenId amount sourceChainId destinationChainId w hpz hs hd h0
    simp [Bridge.createIntent, hpz, hs, hd, h0]
  · intro env tokenId amount sourceChainId destinationChainId w
      hpz hs hd h0 hex ha
    simp [Bridge.createIntent, DataCoin.getDatasetInfo, hpz, hs, hd, h0,
      hex, ha]
  · intro env tokenId amount sourceChainId destinationChainId w iid w' h
    obtain ⟨_, _, _, _, _, _, _, _, _, _, _, _, _, _, _, _, _, c18⟩ :=
      createIntent_ok h
    rw [c18]
    exact ⟨rfl, rfl⟩

/-- Witness for C7: creating an intent from the default-unsupported chain
999 fails with `UnsupportedChain`. -/
theorem claim7_createIntent_witness :
    Bridge.createIntent ⟨3, 100, 5⟩ 1 1 999 137 (demoWorld 5 0 0 0)
      = .error .unsupportedChain :=
  claim7_createIntent.2.1 ⟨3, 100, 5⟩ 1 1 999 137 (demoWorld 5 0 0 0)
    (by decide) (.inl (by decide))

/-- Claim C8 exhibit (the claim is false on the code): in `c8World` dataset
1 has `totalSupply = 1`, yet `executePurchase` for quantity 2 succeeds and
leaves `soldSupply = 2 > 1 = totalSupply` — neither `executePurchase` nor
`grantAccess` checks the cap, contradicting the invariant
`soldSupply ≤ totalSupply` that the `maxSupply` mint parameter is meant to
enforce. -/
theorem claim8_supply_cap_violated : c8check = true := by decide

/-- Claim C9 counterexample: two successful purchases with identical buyer,
dataset, quantity, timestamp and block number (possible within one block)
derive the same purchaseId, and the second overwrites — mutates — the
first record (`c9check`). -/
theorem claim9_counterexample : c9check = true := by decide

/-- Claim C9 (amended): every successful `executePurchase` writes exactly
one purchase record, keyed by the id derived from (dataset, buyer,
quantity, timestamp, block number); that derivation is injective, so
purchases differing in any component (e.g. in different blocks) get
distinct ids; and no operation deletes or modifies a stored purchase
record except an `executePurchase` (direct or nested in `executeIntent`)
whose derived id collides with that record's key. -/
theorem claim9_append_only :
    (∀ (env : Env) (tokenId amount : Nat) (tok : String) (w : World)
        (out : PurchaseOut) (w' : World),
      Marketplace.executePurchase env tokenId amount tok w = .ok (out, w') →
      out.purchaseId = Bytes32.pid tokenId env.sender amount env.ts env.bn ∧
      w'.mp.purchases out.purchaseId =
        { tokenId := tokenId, buyer := env.sender, amount := amount,
          price := (w.dc.datasets tokenId).price, timestamp := env.ts,
          isActive := true, accessToken := tok } ∧
      (∀ k, k ≠ out.purchaseId → w'.mp.purchases k = w.mp.purchases k)) ∧
    (∀ t1 b1 a1 ts1 bn1 t2 b2 a2 ts2 bn2 : Nat,
      Bytes32.pid t1 b1 a1 ts1 bn1 = Bytes32.pid t2 b2 a2 ts2 bn2 →
      t1 = t2 ∧ b1 = b2 ∧ a1 = a2 ∧ ts1 = ts2 ∧ bn1 = bn2) ∧
    (∀ (o : Op) (w : World) (k : Bytes32), writesPurchase o w k = false →
      (applyOp o w).mp.purchases k = w.mp.purchases k) := by
  refine ⟨?_, ?_, ?_⟩
  · intro env tokenId amount tok w out w' h
    obtain ⟨e1, _, _, _, _, _, _, e8, e9, _⟩ := executePurchase_ok h
    exact ⟨e1, e9, e8⟩
  · intro t1 b1 a1 ts1 bn1 t2 b2 a2 ts2 bn2 h
    simpa using h
  · intro o w k h
    exact (op_footprint o w).1 k h

/-- Witness for C9 (amended): the scenario purchase of `c1World` gets the
derived id and writes the expected record. -/
theorem claim9_append_only_witness :
    c1Run.1.purchaseId = Bytes32.pid 1 c1Env.sender 1 c1Env.ts c1Env.bn ∧
    c1Run.2.mp.purchases c1Run.1.purchaseId =
      { tokenId := 1, buyer := c1Env.sender, amount := 1,
        price := (c1World.dc.datasets 1).price, timestamp := c1Env.ts,
        isActive := true, accessToken := tokA } ∧
    (∀ k, k ≠ c1Run.1.purchaseId →
      c1Run.2.mp.purchases k = c1World.mp.purchases k) :=
  claim9_append_only.1 c1Env 1 1 tokA c1World c1Run.1 c1Run.2 (by rfl)

/-- Claim C10: proof verdicts are not consumed — successful `executeIntent`
and `settleIntent` leave the verified-proof registry unchanged, and no
operation other than `verifyProof` changes it, so one verified proofRef
keeps authorizing transitions; `verifyProof(p, false)` by the owner
revokes it, after which `executeIntent` (existing, unexecuted intent) and
`settleIntent` (executed, unsettled intent) citing `p` fail with
`InvalidProof`; conversely, with `p` verified, `settleIntent` succeeds
outright and `executeIntent` never fails the proof check. -/
theorem claim10_proof_reuse :
    (∀ (env : Env) (intentId proofHash : Bytes32) (tok : String) (w w' : World),
      Bridge.executeIntent env intentId proofHash tok w = .ok w' →
      w'.br.verifiedProofs = w.br.verifiedProofs) ∧
    (∀ (env : Env) (intentId proofHash : Bytes32) (w w' : World),
      Bridge.settleIntent env intentId proofHash w = .ok w' →
      w'.br.verifiedProofs = w.br.verifiedProofs) ∧
    (∀ (o : Op) (w : World), isVerifyProof o = false →
      (applyOp o w).br.verifiedProofs = w.br.verifiedProofs) ∧
    (∀ (env : Env) (proofHash : Bytes32) (w w' : World),
      Bridge.verifyProof env proofHash false w = .ok w' →
      w'.br.verifiedProofs proofHash = false) ∧
    (∀ (env : Env) (intentId proofHash : Bytes32) (tok : String) (w : World),
      env.sender = w.br.owner → (w.br.intents intentId).buyer ≠ 0 →
      (w.br.intents intentId).isExecuted = false →
      w.br.verifiedProofs proofHash = false →
      Bridge.executeIntent env intentId proofHash tok w
        = .error .invalidProof) ∧
    (∀ (env : Env) (intentId proofHash : Bytes32) (w : World),
      env.sender = w.br.owner → (w.br.intents intentId).buyer ≠ 0 →
      (w.br.intents intentId).isExecuted = true →
      (w.br.intents intentId).isSettled = false →
      w.br.verifiedProofs proofHash = false →
      Bridge.settleIntent env intentId proofHash w = .error .invalidProof) ∧
    (∀ (env : Env) (intentId proofHash : Bytes32) (w : World),
      env.sender = w.br.owner → (w.br.intents intentId).buyer ≠ 0 →
      (w.br.intents intentId).isExecuted = true →
      (w.br.intents intentId).isSettled = false →
      w.br.verifiedProofs proofHash = true →
      ∃ w', Bridge.settleIntent env intentId proofHash w = .ok w') ∧
    (∀ (env : Env) (intentId proofHash : Bytes32) (tok : String) (w : World),
      env.sender = w.br.owner → (w.br.intents intentId).buyer ≠ 0 →
      (w.br.intents intentId).isExecuted = false →
      w.br.verifiedProofs proofHash = true →
      Bridge.executeIntent env intentId proofHash tok w
        ≠ .error .invalidProof) := by
  refine ⟨?_, ?_, ?_, ?_, ?_, ?_, ?_, ?_⟩
  · intro env intentId proofHash tok w w' h
    exact (executeIntent_ok h).2.2.2.2.2.1
  · intro env intentId proofHash w w' h
    exact (settleIntent_ok h).2.2.2.2.2.2.2.2.2.2.2.1
  · intro o w h
    exact (op_footprint o w).2.2.1 h
  · intro env proofHash w w' h
    exact (verifyProof_ok h).2.2.2.2.2.2.2.2.2.2.2
  · intro env intentId proofHash tok w h1 h2 h3 h4
    exact executeIntent_invalidProof h1 h2 h3 h4
  · intro env intentId proofHash w h1 h2 h3 h4 h5
    exact settleIntent_invalidProof h1 h2 h3 h4 h5
  · intro env intentId proofHash w h1 h2 h3 h4 h5
    exact settleIntent_succeeds h1 h2 h3 h4 h5
  · intro env intentId proofHash tok w h1 h2 h3 h4
    exact executeIntent_ne_invalidProof h1 h2 h3 h4

/-- Witness for C10: in `c10World` the verified proof `raw 7` lets the
executed intent settle. -/
theorem claim10_proof_reuse_witness :
    ∃ w', Bridge.settleIntent ⟨1, 100, 5⟩ (Bytes32.raw 3) (Bytes32.raw 7)
      c10World = .ok w' :=
  claim10_proof_reuse.2.2.2.2.2.2.1 ⟨1, 100, 5⟩ (Bytes32.raw 3) (Bytes32.raw 7)
    c10World (by decide) (by decide) (by decide) (by decide) (by decide)

end SynapseX
